import Mathlib

/-!
Verification development for the roo-pilot-cli repository.

The repository ships two near-duplicate command-line chat clients,
`roo-cli.ts` (TypeScript) and `run-full-cli.js` (JavaScript).  Both consist of
a configuration resolver (load/merge a persisted JSON config with environment
variables and legacy model-name migrations) and a REPL command dispatcher.
This file gives a shallow embedding of both, faithful to the source:

* strings are Lean `String`/`List Char`; the JavaScript regular expressions
  used by the shell-command extraction heuristics are translated into
  explicit scanning functions whose behaviour matches the concrete regexes
  (the relevant backtracking cases are analysed in comments at each site);
* the persisted configuration file is modelled as `FileData`: absent,
  present-but-malformed JSON, or a parsed partial record (JSON parsing itself
  is external; the resolver only branches on its outcome);
* the process environment is a record of the API-key variables the programs
  read; JavaScript truthiness of an environment value is `truthyS`;
* terminal colouring (chalk), spinners and the readline plumbing are elided;
  printed output is collected as a `List String` of the essential texts;
* network calls (provider requests, model-list fetches) are oracles: a chat
  turn receives the provider outcome as an `Except` value, and the
  `run-full-cli.js` model-list fetch is modelled by its deterministic
  fallback tables.
-/

/-- Prefix test on character lists: `lstarts p l` holds when `p` is a prefix of `l`. -/
def lstarts : List Char → List Char → Bool
  | [], _ => true
  | _ :: _, [] => false
  | p :: ps, c :: cs => p = c && lstarts ps cs

/-- Index of the first occurrence of `pat` as a contiguous sublist, if any. -/
def findSubIdx (pat : List Char) : List Char → Option Nat
  | [] => if lstarts pat [] then some 0 else none
  | c :: cs => if lstarts pat (c :: cs) then some 0 else (findSubIdx pat cs).map (· + 1)

/-- Whitespace characters recognised by the JavaScript `trim`, `\s` and split logic
(ASCII range; the exotic Unicode space classes never occur in the texts modelled here). -/
def isJsSpace (c : Char) : Bool :=
  c = ' ' || c = '\t' || c = '\n' || c = '\r' || c = Char.ofNat 11 || c = Char.ofNat 12

/-- JavaScript `String.prototype.trim` on a character list. -/
def trimL (l : List Char) : List Char :=
  ((l.dropWhile isJsSpace).reverse.dropWhile isJsSpace).reverse

/-- JavaScript `toLowerCase` restricted to the ASCII texts in scope (answers,
mode names, config values). -/
def lowerS (s : String) : String := (s.toList.map Char.toLower).asString

/-- JavaScript `split('\n')`. -/
def splitOnNl : List Char → List (List Char)
  | [] => [[]]
  | c :: cs =>
    if c = '\n' then [] :: splitOnNl cs
    else
      match splitOnNl cs with
      | [] => [[c]]
      | l :: ls => (c :: l) :: ls

/-- Fuelled worker for `dedupFirst` (the fuel makes the recursion structural, so
that concrete evaluations reduce in the kernel; the list shrinks at every step,
hence fuel equal to the length is always enough). -/
def dedupFirstF : Nat → List String → List String
  | 0, _ => []
  | _ + 1, [] => []
  | fuel + 1, x :: xs => x :: dedupFirstF fuel (xs.filter (fun y => y ≠ x))

/-- First-occurrence deduplication, the semantics of the spread of a JavaScript `Set`. -/
def dedupFirst (l : List String) : List String := dedupFirstF l.length l

/-- Word characters of the JavaScript regex class `\w`. -/
def wordChar (c : Char) : Bool := c.isAlphanum || c = '_'

/-- Parse of the `key=value` regex `^(\w+)=(.+)$` used by the `/config` handlers:
a nonempty run of word characters, an equals sign, then a nonempty remainder that
contains no newline (the dot of the regex does not match newlines). -/
def parseKeyValue (s : String) : Option (String × String) :=
  let l := s.toList
  let key := l.takeWhile wordChar
  match l.drop key.length with
  | '=' :: v =>
    if key ≠ [] ∧ v ≠ [] ∧ ¬ v.contains '\n' then some (key.asString, v.asString)
    else none
  | _ => none

/-- Value of a digit string. -/
def digitsVal (l : List Char) : Nat :=
  l.foldl (fun a c => a * 10 + (c.toNat - 48)) 0

/-- JavaScript `Number(value)` restricted to plain decimal literals, which is the
shape every numeric `/config` update in scope uses; `none` plays the role of `NaN`
(hex, exponent and `Infinity` forms are outside the modelled inputs). -/
def jsNumber (s : String) : Option ℚ :=
  let t := trimL s.toList
  if t = [] then some 0
  else
    let (neg, u) : Bool × List Char :=
      match t with
      | c :: rest => if c = '-' then (true, rest) else if c = '+' then (false, rest) else (false, t)
      | [] => (false, t)
    let ip := u.takeWhile Char.isDigit
    let val : Option ℚ :=
      match u.drop ip.length with
      | [] => if ip ≠ [] then some (digitsVal ip : ℚ) else none
      | '.' :: fr =>
        if fr.all Char.isDigit ∧ (ip ≠ [] ∨ fr ≠ []) then
          some ((digitsVal ip : ℚ) + (digitsVal fr : ℚ) / (10 : ℚ) ^ fr.length)
        else none
      | _ => none
    if neg then val.map (fun q => -q) else val

/-- JavaScript `parseInt(value)` restricted to its use on typed menu answers:
`none` plays `NaN` (no leading digits); trailing junk is ignored as `parseInt` does. -/
def parseIntJs (s : String) : Option Int :=
  let t := trimL s.toList
  let (sgn, u) : Int × List Char :=
    match t with
    | c :: rest => if c = '-' then (-1, rest) else if c = '+' then (1, rest) else (1, t)
    | [] => (1, t)
  let ds := u.takeWhile Char.isDigit
  if ds = [] then none else some (sgn * (digitsVal ds : Int))

/-- JavaScript number values as stored in the configuration: `none` models `NaN`. -/
abbrev JsNum := Option ℚ

/-- Truthiness of an optional environment-variable value (absent or empty is falsy). -/
def truthyS (o : Option String) : Bool := (o.getD "") ≠ ""

/-- Process environment: the API-key variables read by the two CLIs, the
`DISABLE_AUTO_UPGRADE` flag consulted by `roo-cli.ts`'s migration, and the
working directory `process.cwd()` seeded into the default configuration. -/
structure Env where
  anthropicKey : Option String := none
  openaiKey : Option String := none
  openrouterKey : Option String := none
  mistralKey : Option String := none
  groqKey : Option String := none
  disableAutoUpgrade : Bool := false
  cwd : String := "/work"
deriving Repr, DecidableEq

/-- Configuration record of `roo-cli.ts` (interface `RooPilotConfig`), field order
as in its `DEFAULT_CONFIG` literal. -/
structure RooConfig where
  apiProvider : String
  apiKey : String
  model : String
  temperature : JsNum
  maxTokens : JsNum
  mode : String
  workspacePath : String
  isVisionEnabled : Bool
  checkMcpOnStart : Bool
deriving Repr, DecidableEq

/-- Configuration record of `run-full-cli.js`, field order as in its
`DEFAULT_CONFIG` literal (it adds `mcpServerAddress`). -/
structure FullConfig where
  apiProvider : String
  apiKey : String
  model : String
  temperature : JsNum
  maxTokens : JsNum
  workspacePath : String
  isVisionEnabled : Bool
  mode : String
  mcpServerAddress : String
  checkMcpOnStart : Bool
deriving Repr, DecidableEq

/-- Parsed persisted JSON for `roo-cli.ts`: each field optionally present.
The object spread `{ ...DEFAULT_CONFIG, ...JSON.parse(data) }` takes the stored
value for every present field. -/
structure RooFileCfg where
  apiProvider : Option String := none
  apiKey : Option String := none
  model : Option String := none
  temperature : Option JsNum := none
  maxTokens : Option JsNum := none
  mode : Option String := none
  workspacePath : Option String := none
  isVisionEnabled : Option Bool := none
  checkMcpOnStart : Option Bool := none
deriving Repr, DecidableEq

/-- Parsed persisted JSON for `run-full-cli.js`. -/
structure FullFileCfg where
  apiProvider : Option String := none
  apiKey : Option String := none
  model : Option String := none
  temperature : Option JsNum := none
  maxTokens : Option JsNum := none
  workspacePath : Option String := none
  isVisionEnabled : Option Bool := none
  mode : Option String := none
  mcpServerAddress : Option String := none
  checkMcpOnStart : Option Bool := none
deriving Repr, DecidableEq

/-- State of the persisted configuration file. -/
inductive FileData (α : Type) where
  | missing : FileData α
  | malformed : FileData α
  | parsed : α → FileData α
deriving Repr, DecidableEq

/-- Full record written by `saveConfig` of `roo-cli.ts` (`JSON.stringify(config)`
stores every field). -/
def toRooFile (c : RooConfig) : RooFileCfg :=
  { apiProvider := some c.apiProvider, apiKey := some c.apiKey, model := some c.model
    temperature := some c.temperature, maxTokens := some c.maxTokens, mode := some c.mode
    workspacePath := some c.workspacePath, isVisionEnabled := some c.isVisionEnabled
    checkMcpOnStart := some c.checkMcpOnStart }

/-- Full record written by `saveConfig` of `run-full-cli.js`. -/
def toFullFile (c : FullConfig) : FullFileCfg :=
  { apiProvider := some c.apiProvider, apiKey := some c.apiKey, model := some c.model
    temperature := some c.temperature, maxTokens := some c.maxTokens
    workspacePath := some c.workspacePath, isVisionEnabled := some c.isVisionEnabled
    mode := some c.mode, mcpServerAddress := some c.mcpServerAddress
    checkMcpOnStart := some c.checkMcpOnStart }

/-- DEFAULT_CONFIG of `roo-cli.ts`; `apiKey` is seeded from `ANTHROPIC_API_KEY`
and `workspacePath` from `process.cwd()` at module load. -/
def rooDefaultConfig (env : Env) : RooConfig :=
  { apiProvider := "anthropic", apiKey := env.anthropicKey.getD ""
    model := "claude-3-7-sonnet-20240229", temperature := some (3 / 10)
    maxTokens := some 4096, mode := "assistant", workspacePath := env.cwd
    isVisionEnabled := false, checkMcpOnStart := false }

/-- DEFAULT_CONFIG of `run-full-cli.js`; `apiKey` is seeded from `GROQ_API_KEY`. -/
def rfDefaultConfig (env : Env) : FullConfig :=
  { apiProvider := "groq", apiKey := env.groqKey.getD ""
    model := "llama-3.3-70b-versatile", temperature := some (3 / 10)
    maxTokens := some 4096, workspacePath := env.cwd, isVisionEnabled := false
    mode := "assistant", mcpServerAddress := "http://localhost:3000"
    checkMcpOnStart := false }

/-- Spread merge `{ ...DEFAULT_CONFIG, ...parsed }` for `roo-cli.ts`: a stored
field overrides the default. -/
def mergeRoo (d : RooConfig) (p : RooFileCfg) : RooConfig :=
  { apiProvider := p.apiProvider.getD d.apiProvider, apiKey := p.apiKey.getD d.apiKey
    model := p.model.getD d.model, temperature := p.temperature.getD d.temperature
    maxTokens := p.maxTokens.getD d.maxTokens, mode := p.mode.getD d.mode
    workspacePath := p.workspacePath.getD d.workspacePath
    isVisionEnabled := p.isVisionEnabled.getD d.isVisionEnabled
    checkMcpOnStart := p.checkMcpOnStart.getD d.checkMcpOnStart }

/-- Spread merge for `run-full-cli.js`. -/
def mergeFull (d : FullConfig) (p : FullFileCfg) : FullConfig :=
  { apiProvider := p.apiProvider.getD d.apiProvider, apiKey := p.apiKey.getD d.apiKey
    model := p.model.getD d.model, temperature := p.temperature.getD d.temperature
    maxTokens := p.maxTokens.getD d.maxTokens
    workspacePath := p.workspacePath.getD d.workspacePath
    isVisionEnabled := p.isVisionEnabled.getD d.isVisionEnabled
    mode := p.mode.getD d.mode
    mcpServerAddress := p.mcpServerAddress.getD d.mcpServerAddress
    checkMcpOnStart := p.checkMcpOnStart.getD d.checkMcpOnStart }

/-- First-run environment scan of `roo-cli.ts`'s `initializeConfig`: the chain of
`if/else if` on the five API-key variables, in source order. -/
def rooFirstRun (env : Env) : RooConfig :=
  let c := rooDefaultConfig env
  if truthyS env.anthropicKey then
    { c with apiKey := env.anthropicKey.getD "", apiProvider := "anthropic" }
  else if truthyS env.openaiKey then
    { c with apiKey := env.openaiKey.getD "", apiProvider := "openai", model := "gpt-4o" }
  else if truthyS env.openrouterKey then
    { c with apiKey := env.openrouterKey.getD "", apiProvider := "openrouter"
             model := "anthropic/claude-3-7-sonnet" }
  else if truthyS env.mistralKey then
    { c with apiKey := env.mistralKey.getD "", apiProvider := "mistral"
             model := "mistral-large-latest" }
  else if truthyS env.groqKey then
    { c with apiKey := env.groqKey.getD "", apiProvider := "groq", model := "llama3-70b-8192" }
  else c

/-- The `migrateModelNames` function of `roo-cli.ts`: the four sequential rewrite
rules, returning the rewritten config and the `configChanged` flag. -/
def rooMigrate (env : Env) (c0 : RooConfig) : RooConfig × Bool :=
  let s1 :=
    if c0.apiProvider = "groq" ∧ c0.model = "llama-3-70b-8192" then
      ({ c0 with model := "llama3-70b-8192" }, true)
    else (c0, false)
  let s2 :=
    if s1.1.apiProvider = "groq" ∧
        (s1.1.model = "llama-3-3-70b-versatile" ∨ s1.1.model = "llama-3.3-70b-versatile") then
      ({ s1.1 with model := "llama3-3-70b-versatile" }, true)
    else s1
  let s3 :=
    if s2.1.apiProvider = "groq" ∧ s2.1.model = "llama3-70b-8192" ∧
        env.disableAutoUpgrade = false then
      ({ s2.1 with model := "llama3-3-70b-versatile" }, true)
    else s2
  let s4 :=
    if s3.1.apiProvider = "anthropic" ∧ s3.1.model = "claude-3-sonnet-20240229" ∧
        env.disableAutoUpgrade = false then
      ({ s3.1 with model := "claude-3-7-sonnet-20240229" }, true)
    else s3
  s4

/-- Environment-variable API-key override of `roo-cli.ts` (the `else if` chain after
the migration): a key is applied only when its provider is the configured one. -/
def rooEnvOverride (env : Env) (c : RooConfig) : RooConfig :=
  if truthyS env.anthropicKey ∧ c.apiProvider = "anthropic" then
    { c with apiKey := env.anthropicKey.getD "" }
  else if truthyS env.openaiKey ∧ c.apiProvider = "openai" then
    { c with apiKey := env.openaiKey.getD "" }
  else if truthyS env.openrouterKey ∧ c.apiProvider = "openrouter" then
    { c with apiKey := env.openrouterKey.getD "" }
  else if truthyS env.mistralKey ∧ c.apiProvider = "mistral" then
    { c with apiKey := env.mistralKey.getD "" }
  else if truthyS env.groqKey ∧ c.apiProvider = "groq" then
    { c with apiKey := env.groqKey.getD "" }
  else c

/-- The `initializeConfig` of `roo-cli.ts`: no file seeds defaults and scans the
environment, then writes the result; an unreadable or malformed file falls back
to the defaults without writing; a parsed file is merged over defaults, migrated
(the migration persisting when it changed something) and then env-overridden.
Returns the effective config, the resulting file state and the notices printed. -/
def rooInitialize (disk : FileData RooFileCfg) (env : Env) :
    RooConfig × FileData RooFileCfg × List String :=
  match disk with
  | .missing =>
    let c := rooFirstRun env
    (c, .parsed (toRooFile c), [])
  | .malformed =>
    (rooDefaultConfig env, .malformed,
      ["Error reading config file:", "Using default configuration"])
  | .parsed p =>
    let c0 := mergeRoo (rooDefaultConfig env) p
    let m := rooMigrate env c0
    let disk2 := if m.2 then FileData.parsed (toRooFile m.1) else FileData.parsed p
    let outs := if m.2 then ["Model upgraded to: " ++ m.1.model] else []
    (rooEnvOverride env m.1, disk2, outs)

/-- Raw environment value of a provider key in `run-full-cli.js`'s `detectApiKeys`
(`keys` object; providers outside the four map to `undefined`). -/
def rfKeyOf (env : Env) (p : String) : Option String :=
  if p = "groq" then env.groqKey
  else if p = "anthropic" then env.anthropicKey
  else if p = "openai" then env.openaiKey
  else if p = "mistral" then env.mistralKey
  else none

/-- JavaScript availability test `value && value.trim() !== ''`. -/
def presentTrim (o : Option String) : Bool := trimL (o.getD "").toList ≠ []

/-- The `available` list of `detectApiKeys`: providers with a nonblank key, in the
insertion order groq, anthropic, openai, mistral. -/
def rfAvailable (env : Env) : List String :=
  ["groq", "anthropic", "openai", "mistral"].filter (fun p => presentTrim (rfKeyOf env p))

/-- The `count` of `detectApiKeys`. -/
def rfCount (env : Env) : Nat := (rfAvailable env).length

/-- Default model chosen by `run-full-cli.js` for its single-available-provider
switch statement. -/
def rfDefaultModelFor (p : String) : String :=
  if p = "groq" then "llama-3.3-70b-versatile"
  else if p = "anthropic" then "claude-3-7-sonnet-20240229"
  else if p = "openai" then "gpt-4o"
  else if p = "mistral" then "mistral-large-latest"
  else "llama-3.3-70b-versatile"

/-- First-run branch of `run-full-cli.js`'s `initializeConfig`: keep the groq
default when no key is available, adopt the single available provider, or with
several keys pick by the raw-truthiness priority chain groq, anthropic, openai,
mistral. -/
def rfFirstRun (env : Env) : FullConfig :=
  let c := rfDefaultConfig env
  if rfCount env = 0 then c
  else if rfCount env = 1 then
    let p := (rfAvailable env).headD "groq"
    { c with apiProvider := p, apiKey := (rfKeyOf env p).getD "", model := rfDefaultModelFor p }
  else
    if truthyS env.groqKey then
      { c with apiProvider := "groq", apiKey := env.groqKey.getD ""
               model := "llama-3.3-70b-versatile" }
    else if truthyS env.anthropicKey then
      { c with apiProvider := "anthropic", apiKey := env.anthropicKey.getD ""
               model := "claude-3-7-sonnet-20240229" }
    else if truthyS env.openaiKey then
      { c with apiProvider := "openai", apiKey := env.openaiKey.getD "", model := "gpt-4o" }
    else if truthyS env.mistralKey then
      { c with apiProvider := "mistral", apiKey := env.mistralKey.getD ""
               model := "mistral-large-latest" }
    else c

/-- Provider switch / override block at the end of `run-full-cli.js`'s load path:
switch `apiProvider`/`apiKey` to the first available provider when the configured
one has no raw-truthy environment key but some provider does; otherwise a truthy
key for the configured provider overrides `apiKey` alone. -/
def rfSwitch (env : Env) (c : FullConfig) : FullConfig :=
  if truthyS (rfKeyOf env c.apiProvider) = false ∧ 0 < rfCount env then
    let np := (rfAvailable env).headD "groq"
    { c with apiProvider := np, apiKey := (rfKeyOf env np).getD "" }
  else if truthyS (rfKeyOf env c.apiProvider) then
    { c with apiKey := (rfKeyOf env c.apiProvider).getD "" }
  else c

/-- The `initializeConfig` of `run-full-cli.js`.  The two groq legacy-model rewrites
each persist immediately.  When the configured provider has no (raw-truthy)
environment key but some provider does, the code switches `apiProvider`/`apiKey` to
the first available provider; that branch also revalidates the model and saves
inside an un-awaited promise callback, i.e. after `initializeConfig` has returned —
only its synchronous provider/apiKey effects are modelled here.  Otherwise a
truthy key for the configured provider overrides `apiKey` alone. -/
def rfInitialize (disk : FileData FullFileCfg) (env : Env) :
    FullConfig × FileData FullFileCfg × List String :=
  match disk with
  | .missing =>
    let c := rfFirstRun env
    (c, .parsed (toFullFile c), [])
  | .malformed =>
    (rfDefaultConfig env, .malformed,
      ["Error reading config file:", "Using default configuration"])
  | .parsed p =>
    let c0 := mergeFull (rfDefaultConfig env) p
    let s1 :=
      if c0.apiProvider = "groq" ∧ c0.model = "llama-3-70b-8192" then
        let c := { c0 with model := "llama3-70b-8192" }
        (c, FileData.parsed (toFullFile c))
      else (c0, FileData.parsed p)
    let s2 :=
      if s1.1.apiProvider = "groq" ∧ s1.1.model = "llama3-70b-8192" then
        let c := { s1.1 with model := "llama-3.3-70b-versatile" }
        (c, FileData.parsed (toFullFile c))
      else s1
    (rfSwitch env s2.1, s2.2, [])

example :
    (rooInitialize (.parsed { apiProvider := some "groq", model := some "llama-3-70b-8192" })
      {}).1.model = "llama3-3-70b-versatile" := by decide

example :
    (rfInitialize (.parsed { apiProvider := some "groq", model := some "llama-3-70b-8192" })
      {}).1.model = "llama-3.3-70b-versatile" := by decide

/-- Fence-header match of the `roo-cli.ts` code-block regex
"(?:bash|sh|shell|zsh|)?\n" right after the opening triple backtick: the first
alternative (in the regex order bash, sh, shell, zsh, empty) whose text plus a
newline is a prefix of `r`; returns the tag length.  At most one alternative can
match (each requires its full tag followed by a newline and the tags pairwise
disagree on the characters after a shared start), so no backtracking across
alternatives arises. -/
def rooFence (r : List Char) : Option Nat :=
  if lstarts (("bash\n").toList) r then some 4
  else if lstarts (("sh\n").toList) r then some 2
  else if lstarts (("shell\n").toList) r then some 5
  else if lstarts (("zsh\n").toList) r then some 3
  else if lstarts ['\n'] r then some 0
  else none

/-- Match of the `roo-cli.ts` code-block regex
"```(?:bash|sh|shell|zsh|)?\n([\s\S]*?)\n```" at the position of the character
`c` (with `cs` the rest of the text): the lazy capture is the text up to the
first "\n```".  Returns the captured group and how many characters of `cs` the
whole match spans (the regex engine resumes scanning after the match). -/
def rooBlockAt (c : Char) (cs : List Char) : Option (List Char × Nat) :=
  if c = '`' ∧ lstarts (("``").toList) cs then
    let r := cs.drop 2
    match rooFence r with
    | some tl =>
      let body := r.drop (tl + 1)
      match findSubIdx (("\n```").toList) body with
      | some k => some (body.take k, 2 + tl + 1 + k + 4)
      | none => none
    | none => none
  else none

/-- Generic global regex scan: try the matcher at each position; on failure the
engine advances one character, after a match it resumes at the match end.  The
fuel argument makes the recursion structural; the text shrinks at every step,
so fuel equal to the text length always suffices. -/
def scanWith (f : Char → List Char → Option (List Char × Nat)) :
    Nat → List Char → List (List Char)
  | 0, _ => []
  | _ + 1, [] => []
  | fuel + 1, c :: cs =>
    match f c cs with
    | some (cap, n) => cap :: scanWith f fuel (cs.drop n)
    | none => scanWith f fuel cs

/-- Global scan of the `roo-cli.ts` code-block regex: all captured groups in order. -/
def rooScanBlocks (l : List Char) : List (List Char) := scanWith rooBlockAt l.length l

/-- Match of the inline-code regex "`([^`]+)`" at the position of `c`: a
backtick, then a maximal nonempty run of non-backticks that must be followed by
a backtick (every shorter run ends before a non-backtick, so greedy matching
cannot back off).  Returns the captured run and the span within `cs`. -/
def inlineAt (c : Char) (cs : List Char) : Option (List Char × Nat) :=
  if c = '`' then
    let content := cs.takeWhile (fun x => x ≠ '`')
    if content.length ≠ 0 ∧ lstarts ['`'] (cs.drop content.length) then
      some (content, content.length + 1)
    else none
  else none

/-- Global scan of the inline-code regex "`([^`]+)`". -/
def scanInline (l : List Char) : List (List Char) := scanWith inlineAt l.length l

/-- The `commandPrefixes` allow-list of `roo-cli.ts`'s `extractCommands`. -/
def rooCmdStarts : List String :=
  ["cd ", "ls", "cat ", "grep ", "find ", "mkdir ", "rm ", "cp ", "mv ", "git ", "npm ",
   "node ", "python ", "pip ", "sudo ", "apt ", "brew ", "touch ", "echo ", "curl ", "wget "]

/-- The `extractCommands` function of `roo-cli.ts`: contents of single-line
fenced code blocks (multi-line block contents are simply not pushed), then
inline code spans whose trimmed text starts with an allow-listed command word,
deduplicated preserving first occurrences. -/
def extractCommands (text : String) : List String :=
  let blockCmds := (rooScanBlocks text.toList).filterMap (fun b =>
    let code := trimL b
    if code ≠ [] ∧ ¬ code.contains '\n' then some code.asString else none)
  let inlineCmds := (scanInline text.toList).filterMap (fun b =>
    let code := trimL b
    if rooCmdStarts.any (fun p => lstarts p.toList code) then some code.asString else none)
  dedupFirst (blockCmds ++ inlineCmds)

/-- Fence-header consumption of the `run-full-cli.js` code-block regex
"(?:bash|shell|sh|\n|\s)?" right after the opening triple backtick, alternatives
in the regex order; the group is optional, so zero characters is the final
fallback.  None of the alternatives can contain a backtick, so consuming one
never skips a closing "```": when no "```" occurs later every alternative fails
alike, hence taking the first matching alternative reproduces the regex
backtracking. -/
def rfFence (r : List Char) : Nat :=
  if lstarts (("bash").toList) r then 4
  else if lstarts (("shell").toList) r then 5
  else if lstarts (("sh").toList) r then 2
  else if lstarts ['\n'] r then 1
  else
    match r with
    | c :: _ => if isJsSpace c then 1 else 0
    | [] => 0

/-- Match of the `run-full-cli.js` code-block regex
"```(?:bash|shell|sh|\n|\s)?\n?(.*?)```" (dotall flag) at the position of `c`:
after the optional fence header an optional newline is consumed greedily (a
newline is never the start of the closing "```", so consuming it cannot lose the
match), then the lazy capture runs to the first "```". -/
def rfBlockAt (c : Char) (cs : List Char) : Option (List Char × Nat) :=
  if c = '`' ∧ lstarts (("``").toList) cs then
    let r := cs.drop 2
    let tl := rfFence r
    let r2 := r.drop tl
    let nlc := if lstarts ['\n'] r2 then 1 else 0
    let body := r2.drop nlc
    match findSubIdx (("```").toList) body with
    | some k => some (body.take k, 2 + tl + nlc + k + 3)
    | none => none
  else none

/-- Global scan of the `run-full-cli.js` code-block regex. -/
def rfScanBlocks (l : List Char) : List (List Char) := scanWith rfBlockAt l.length l

/-- The six command verbs `tryExtractAndRunCommand` of `run-full-cli.js` accepts
for multi-line block lines and for inline spans. -/
def rfAllowVerbs : List String := ["ls", "find", "grep", "wc", "cat", "echo"]

/-- Command-candidate extraction of `run-full-cli.js`'s `tryExtractAndRunCommand`:
single-line block contents are taken outright; multi-line blocks contribute
their trimmed lines that are nonempty, not comments, and start with an
allow-listed verb; inline code spans are consulted only when the code blocks
yielded no candidate, filtered by the same verbs. -/
def rfExtract (text : String) : List String :=
  let blockCmds := (rfScanBlocks text.toList).flatMap (fun b =>
    let pc := trimL b
    if pc ≠ [] ∧ ¬ pc.contains '\n' then [pc.asString]
    else if pc ≠ [] ∧ pc.contains '\n' then
      (splitOnNl pc).filterMap (fun line =>
        let tl := trimL line
        if tl ≠ [] ∧ ¬ lstarts ['#'] tl ∧ rfAllowVerbs.any (fun v => lstarts v.toList tl) then
          some tl.asString
        else none)
    else [])
  if blockCmds = [] then
    (scanInline text.toList).filterMap (fun b =>
      let pc := trimL b
      if pc ≠ [] ∧ rfAllowVerbs.any (fun v => lstarts v.toList pc) then some pc.asString
      else none)
  else blockCmds

example : extractCommands ("```\nls -la\n```") = ["ls -la"] := by decide

example : rfExtract ("```\nls -la\n```") = ["ls -la"] := by decide

example : extractCommands ("```\ncat a.txt\nfoo bar\n```") = ["cat a.txt\nfoo bar"] := by decide

example : rfExtract ("```\ncat a.txt\nfoo bar\n```") = ["cat a.txt"] := by decide

example : rfExtract ("Run ```\npwd\n``` or `ls -la`.") = ["pwd"] := by decide

example : extractCommands ("Run ```\npwd\n``` or `ls -la`.") = ["pwd"] := by decide

example : extractCommands ("A `ls -la` span and block ```\npwd\n```") = ["pwd", "ls -la"] := by
  decide

example : rfExtract ("Use `ls -la` please") = ["ls -la"] := by decide

example : extractCommands ("just prose, no code") = [] := by decide

/-- Model metadata of `roo-cli.ts`'s `getProviderModelsMetadata`, reduced to the
pair (name, supportsVision) that the CLI logic consumes (display names and
context windows only feed prints). -/
def rooModelsMeta (p : String) : List (String × Bool) :=
  if p = "anthropic" then
    [("claude-3-7-sonnet-20240229", true), ("claude-3-5-sonnet-20240620", true),
     ("claude-3-opus-20240229", true), ("claude-3-haiku-20240307", true)]
  else if p = "openai" then
    [("gpt-4o", true), ("gpt-4o-mini", true), ("gpt-4-turbo", true), ("gpt-3.5-turbo", true)]
  else if p = "openrouter" then
    [("anthropic/claude-3-7-sonnet", true), ("anthropic/claude-3-opus", true),
     ("openai/gpt-4o", true), ("mistral/mistral-large", false),
     ("meta-llama/llama-3-70b-instruct", false)]
  else if p = "bedrock" then
    [("anthropic.claude-3-7-sonnet-20240229", true), ("anthropic.claude-3-opus-20240229", true),
     ("anthropic.claude-3-haiku-20240307", true)]
  else if p = "gemini" then
    [("gemini-1.5-pro", true), ("gemini-1.5-flash", true)]
  else if p = "mistral" then
    [("mistral-large-latest", false), ("mistral-medium-latest", false),
     ("mistral-small-latest", false)]
  else if p = "groq" then
    [("llama3-3-70b-versatile", false), ("llama3-70b-8192", false), ("llama3-8b-8192", false),
     ("mixtral-8x7b-32768", false), ("gemma-7b-it", false), ("claude-3-5-sonnet-20240620", true)]
  else []

/-- The `getAvailableModels` of `roo-cli.ts`: the metadata names. -/
def rooModelsFor (p : String) : List String := (rooModelsMeta p).map (fun m => m.1)

/-- The `getFallbackModelsMetadata` table of `run-full-cli.js`, reduced to the
pair (name, supportsVision) the CLI logic consumes; its `getAvailableModels` and
`getProviderModelsMetadata` first try a network fetch, which is modelled by this
deterministic fallback table. -/
def rfFallbackModelsMeta (p : String) : List (String × Bool) :=
  if p = "anthropic" then
    [("claude-3-7-sonnet-20240229", true), ("claude-3-5-sonnet-20240620", true),
     ("claude-3-opus-20240229", true), ("claude-3-haiku-20240307", true)]
  else if p = "openai" then
    [("gpt-4o", true), ("gpt-4o-mini", true), ("gpt-4-turbo", true), ("gpt-3.5-turbo", true)]
  else if p = "mistral" then
    [("mistral-large-latest", false), ("mistral-medium-latest", false),
     ("mistral-small-latest", false)]
  else if p = "groq" then
    [("llama-3.3-70b-versatile", true), ("llama3-70b-8192", false), ("llama3-8b-8192", false),
     ("mixtral-8x7b-32768", false), ("gemma-7b-it", false), ("claude-3-5-sonnet-20240620", true)]
  else []

/-- The fallback model names of `run-full-cli.js`. -/
def rfFallbackModelsFor (p : String) : List String :=
  (rfFallbackModelsMeta p).map (fun m => m.1)

/-- The `MCP_MODES` table of `run-full-cli.js`. -/
def mcpModes : List (String × String) :=
  [("assistant", "General purpose assistant mode"),
   ("code", "Focused on coding tasks"),
   ("sql", "Specialized for SQL queries and database work"),
   ("data", "Data analysis and visualization helper"),
   ("explain", "Code explanation and documentation specialist")]

/-- Rendering of a stored JavaScript number for the configuration display
(deterministic per value; the exact decimal spelling is immaterial to the
properties proved about the display). -/
def showNum (n : JsNum) : String :=
  match n with
  | some q => toString q
  | none => "NaN"

/-- Provider menu of the `roo-cli.ts` configuration display. -/
def rooProvidersDisplay : List (String × String) :=
  [("anthropic", "Anthropic (Claude)"), ("openai", "OpenAI (GPT)"), ("openrouter", "OpenRouter"),
   ("bedrock", "AWS Bedrock"), ("gemini", "Google Gemini"), ("mistral", "Mistral AI"),
   ("groq", "Groq (Fast inference)")]

/-- Provider menu of the `run-full-cli.js` configuration display. -/
def rfProvidersDisplay : List (String × String) :=
  [("groq", "Groq (Fast inference)"), ("anthropic", "Anthropic (Claude)"),
   ("openai", "OpenAI (GPT)"), ("mistral", "Mistral AI")]

/-- Configuration display of `roo-cli.ts`'s `handleConfigCommand` with no
subcommand: one line per field in object order with the API key masked, a
warning block when the key is unset, then the provider menu with the current
provider marked. -/
def rooDisplayLines (c : RooConfig) : List String :=
  ["Current Configuration:",
   "apiProvider = " ++ c.apiProvider,
   "apiKey = " ++ (if c.apiKey = "" then "(not set)" else "****"),
   "model = " ++ c.model,
   "temperature = " ++ showNum c.temperature,
   "maxTokens = " ++ showNum c.maxTokens,
   "mode = " ++ c.mode,
   "workspacePath = " ++ c.workspacePath,
   "isVisionEnabled = " ++ toString c.isVisionEnabled,
   "checkMcpOnStart = " ++ toString c.checkMcpOnStart]
  ++ (if c.apiKey = "" then
        ["Warning: API key is not set.", "You can:",
         "1. Use /config apiKey=your_key to set it directly",
         "2. Add it to .env file (recommended)",
         "3. Run /env to create a template .env file"]
      else [])
  ++ ["Available providers:"]
  ++ rooProvidersDisplay.map (fun e =>
      (if e.1 = c.apiProvider then "➤ " else "  ") ++ e.1 ++ ": " ++ e.2)

/-- Configuration display of `run-full-cli.js`'s `handleConfigCommand` with no
subcommand (field order of its config object; it additionally lists the modes). -/
def rfDisplayLines (c : FullConfig) : List String :=
  ["Current Configuration:",
   "apiProvider = " ++ c.apiProvider,
   "apiKey = " ++ (if c.apiKey = "" then "(not set)" else "****"),
   "model = " ++ c.model,
   "temperature = " ++ showNum c.temperature,
   "maxTokens = " ++ showNum c.maxTokens,
   "workspacePath = " ++ c.workspacePath,
   "isVisionEnabled = " ++ toString c.isVisionEnabled,
   "mode = " ++ c.mode,
   "mcpServerAddress = " ++ c.mcpServerAddress,
   "checkMcpOnStart = " ++ toString c.checkMcpOnStart]
  ++ (if c.apiKey = "" then
        ["Warning: API key is not set.", "You can:",
         "1. Use /config apiKey=your_key to set it directly",
         "2. Add it to .env file (recommended)",
         "3. Run /env to create a template .env file"]
      else [])
  ++ ["Available providers:"]
  ++ rfProvidersDisplay.map (fun e =>
      (if e.1 = c.apiProvider then "➤ " else "  ") ++ e.1 ++ ": " ++ e.2)
  ++ ["Available modes:"]
  ++ mcpModes.map (fun e =>
      (if e.1 = c.mode then "➤ " else "  ") ++ e.1 ++ ": " ++ e.2)

/-- Confirmation line of a `key=value` configuration update; the API key is
masked exactly as in the source template literal. -/
def confirmLine (key value : String) : String :=
  "Configuration updated: " ++ key ++ " = " ++ (if key = "apiKey" then "****" else value)

/-- Field names of the `roo-cli.ts` config object, the `key in config` test. -/
def rooConfigKeys : List String :=
  ["apiProvider", "apiKey", "model", "temperature", "maxTokens", "mode", "workspacePath",
   "isVisionEnabled", "checkMcpOnStart"]

/-- Field names of the `run-full-cli.js` config object. -/
def rfConfigKeys : List String :=
  ["apiProvider", "apiKey", "model", "temperature", "maxTokens", "workspacePath",
   "isVisionEnabled", "mode", "mcpServerAddress", "checkMcpOnStart"]

/-- Valid providers accepted by the `roo-cli.ts` `/config apiProvider=` branch. -/
def rooProviders : List String :=
  ["anthropic", "openai", "openrouter", "bedrock", "gemini", "mistral", "groq"]

/-- Valid providers accepted by the `run-full-cli.js` `/config apiProvider=` branch. -/
def rfProviders : List String := ["groq", "anthropic", "openai", "mistral"]

/-- Untyped assignment `(config as any)[key] = value` of `roo-cli.ts` for keys
other than `apiProvider`/`model`: `temperature` and `maxTokens` go through
`Number(value)`; the remaining fields store the raw string.  The source stores
that raw string even on the boolean-typed fields, whose later uses only test
truthiness, so this typed embedding stores the truth value of a nonempty string
there (the regex guarantees the value is nonempty, hence `true`). -/
def rooSetField (c : RooConfig) (k v : String) : RooConfig :=
  if k = "apiKey" then { c with apiKey := v }
  else if k = "temperature" then { c with temperature := jsNumber v }
  else if k = "maxTokens" then { c with maxTokens := jsNumber v }
  else if k = "mode" then { c with mode := v }
  else if k = "workspacePath" then { c with workspacePath := v }
  else if k = "isVisionEnabled" then { c with isVisionEnabled := v ≠ "" }
  else if k = "checkMcpOnStart" then { c with checkMcpOnStart := v ≠ "" }
  else c

/-- Result of a `/config` invocation: the (possibly updated) in-memory config,
the argument of `saveConfig` when it ran, and the lines printed. -/
structure CfgResult (α : Type) where
  cfg : α
  saved : Option α
  out : List String
deriving Repr, DecidableEq

/-- The `handleConfigCommand` of `roo-cli.ts`.  `answer` is the reply the
interactive `askYesNo` confirmation would read when an unknown model is being
set. -/
def rooHandleConfig (c : RooConfig) (sub : String) (answer : String) : CfgResult RooConfig :=
  if sub = "" then ⟨c, none, rooDisplayLines c⟩
  else
    match parseKeyValue sub with
    | none => ⟨c, none, ["Invalid configuration format. Use /config key=value"]⟩
    | some (k, v) =>
      if rooConfigKeys.contains k then
        if k = "apiProvider" then
          if rooProviders.contains v = false then
            ⟨c, none,
             ["Invalid provider: " ++ v,
              "Available providers: " ++ String.intercalate ", " rooProviders]⟩
          else
            let c1 := { c with apiProvider := v }
            let ms := rooModelsFor v
            if ms ≠ [] ∧ ms.contains c1.model = false then
              let c2 := { c1 with model := ms.headD "" }
              ⟨c2, some c2, ["Changed model to " ++ c2.model, confirmLine k v]⟩
            else ⟨c1, some c1, [confirmLine k v]⟩
        else if k = "model" then
          let ms := rooModelsFor c.apiProvider
          if ms.contains v = false then
            let warn :=
              ["Warning: " ++ v ++ " is not in the list of known models for " ++ c.apiProvider,
               "Available models: " ++ String.intercalate ", " ms]
            if lowerS answer = "y" then
              let c2 := { c with model := v }
              ⟨c2, some c2, warn ++ [confirmLine k v]⟩
            else ⟨c, none, warn⟩
          else
            let c2 := { c with model := v }
            ⟨c2, some c2, [confirmLine k v]⟩
        else
          let c2 := rooSetField c k v
          ⟨c2, some c2, [confirmLine k v]⟩
      else
        ⟨c, none,
         ["Unknown configuration key: " ++ k,
          "Available keys: " ++ String.intercalate ", " rooConfigKeys]⟩

/-- The `handleConfigCommand` of `run-full-cli.js`; model lists come from the
fallback tables (see `rfFallbackModelsFor`). -/
def rfHandleConfig (c : FullConfig) (sub : String) (answer : String) : CfgResult FullConfig :=
  if sub = "" then ⟨c, none, rfDisplayLines c⟩
  else
    match parseKeyValue sub with
    | none => ⟨c, none, ["Invalid configuration format. Use /config key=value"]⟩
    | some (k, v) =>
      if rfConfigKeys.contains k then
        if k = "apiProvider" then
          if rfProviders.contains v = false then
            ⟨c, none,
             ["Invalid provider: " ++ v,
              "Available providers: " ++ String.intercalate ", " rfProviders]⟩
          else
            let c1 := { c with apiProvider := v }
            let ms := rfFallbackModelsFor v
            if ms ≠ [] ∧ ms.contains c1.model = false then
              let c2 := { c1 with model := ms.headD "" }
              ⟨c2, some c2, ["Changed model to " ++ c2.model, confirmLine k v]⟩
            else ⟨c1, some c1, [confirmLine k v]⟩
        else if k = "model" then
          let ms := rfFallbackModelsFor c.apiProvider
          if ms.contains v = false then
            let warn :=
              ["Warning: " ++ v ++ " is not in the list of known models for " ++ c.apiProvider,
               "Available models: " ++ String.intercalate ", " ms]
            if lowerS answer = "y" then
              let c2 := { c with model := v }
              ⟨c2, some c2, warn ++ [confirmLine k v]⟩
            else ⟨c, none, warn⟩
          else
            let c2 := { c with model := v }
            ⟨c2, some c2, [confirmLine k v]⟩
        else if k = "mode" then
          if (mcpModes.map (fun e => e.1)).contains v = false then
            ⟨c, none, ["Unknown mode: " ++ v, "Available modes:"]⟩
          else
            let c2 := { c with mode := v }
            ⟨c2, some c2, [confirmLine k v]⟩
        else if k = "checkMcpOnStart" then
          let c2 := { c with checkMcpOnStart := lowerS v = "true" }
          ⟨c2, some c2, [confirmLine k v]⟩
        else
          let c2 :=
            if k = "apiKey" then { c with apiKey := v }
            else if k = "temperature" then { c with temperature := jsNumber v }
            else if k = "maxTokens" then { c with maxTokens := jsNumber v }
            else if k = "workspacePath" then { c with workspacePath := v }
            else if k = "mcpServerAddress" then { c with mcpServerAddress := v }
            else if k = "isVisionEnabled" then { c with isVisionEnabled := v ≠ "" }
            else c
          ⟨c2, some c2, [confirmLine k v]⟩
      else
        ⟨c, none,
         ["Unknown configuration key: " ++ k,
          "Available keys: " ++ String.intercalate ", " rfConfigKeys]⟩

/-- Abstract file system visible to the file commands: file contents by absolute
path, directory listings (entry name, isDirectory) by absolute path, and paths
whose write raises (permission failure).  Directory creation by `writeFile` is
elided. -/
structure Fs where
  files : List (String × String) := []
  dirs : List (String × List (String × Bool)) := []
  writeDenied : List String := []
deriving Repr, DecidableEq

/-- POSIX `path.isAbsolute`. -/
def isAbsolutePath (p : String) : Bool := lstarts ['/'] p.toList

/-- The `path.join(workspacePath, p)` of the file commands, modelled for the
argument shapes they produce (no `..` normalisation arises in scope; joining
the default `.` yields the workspace itself, as `path.join` does). -/
def joinPath (ws p : String) : String := if p = "." then ws else ws ++ ("/" ++ p)

/-- Relative-to-absolute resolution shared by the three file operations. -/
def resolvePath (ws p : String) : String :=
  if isAbsolutePath p then p else joinPath ws p

/-- The `readFile` helper: missing files (the `fileExistsAtPath` test) yield an
inline error string rather than an exception. -/
def readFileOp (fs : Fs) (ws p : String) : String :=
  let full := resolvePath ws p
  match fs.files.lookup full with
  | some content => content
  | none => "Error: File not found at " ++ full

/-- The `writeFile` helper: returns the success or error string together with
the updated file system. -/
def writeFileOp (fs : Fs) (ws p content : String) : String × Fs :=
  let full := resolvePath ws p
  if fs.writeDenied.contains full then ("Error writing file: EACCES", fs)
  else ("File written successfully to " ++ full, { fs with files := (full, content) :: fs.files })

/-- The `listFiles` helper: `[DIR]`/`[FILE]`-tagged lines joined by newlines, or
an inline error string when the directory does not exist. -/
def listFilesOp (fs : Fs) (ws p : String) : String :=
  let full := resolvePath ws p
  match fs.dirs.lookup full with
  | some items =>
    String.intercalate "\n"
      (items.map (fun it => (if it.2 then "[DIR] " else "[FILE] ") ++ it.1))
  | none => "Error: Directory not found at " ++ full

/-- Role-tagged chat history entry (the text content of the message blocks). -/
structure ChatMsg where
  role : String
  text : String
deriving Repr, DecidableEq

/-- Session state of the `roo-cli.ts` REPL: in-memory config, chat history, the
file system, the persisted config file, and whether the loop keeps running. -/
structure RooWorld where
  cfg : RooConfig
  hist : List ChatMsg := []
  fs : Fs := {}
  disk : FileData RooFileCfg := .missing
  running : Bool := true
deriving Repr, DecidableEq

/-- Oracle inputs consumed during one loop iteration: the provider-call outcome
(`Except` error models a thrown request failure), the answer typed at an
interactive sub-prompt, and the output of an executed shell command. -/
structure TurnIO where
  outcome : Except String String := .error "no call"
  answer : String := ""
  execResult : String := ""
deriving Repr

/-- One iteration of `runChatLoop`/`processUserInput` of `roo-cli.ts` on one
input line: the slash-command dispatch chain in source order, or a chat turn.
Returns the new session state and the lines printed.  Tool-use handling of the
parsed assistant message is not modelled (the oracle responses are plain text);
the `/models` print-out is reduced to its effect and confirmation. -/
def rooStep (io : TurnIO) (w : RooWorld) (input : String) : RooWorld × List String :=
  let il := input.toList
  if lstarts ['/'] il then
    let cmd := trimL (il.drop 1)
    if cmd = ("exit").toList ∨ cmd = ("quit").toList then
      ({ w with running := false }, ["Goodbye!"])
    else if cmd = ("help").toList then
      (w, ["Roo Pilot CLI Commands:"])
    else if cmd = ("clear").toList then
      ({ w with hist := [] }, ["Chat history cleared."])
    else if lstarts (("config").toList) cmd then
      let r := rooHandleConfig w.cfg (trimL (cmd.drop 6)).asString io.answer
      let disk2 := match r.saved with
        | some c => FileData.parsed (toRooFile c)
        | none => w.disk
      ({ w with cfg := r.cfg, disk := disk2 }, r.out)
    else if cmd = ("env").toList then
      (w, ["Created .env.template file"])
    else if lstarts (("read").toList) cmd then
      let p := (trimL (cmd.drop 4)).asString
      if p = "" then (w, ["Please specify a file path to read."])
      else
        let content := readFileOp w.fs w.cfg.workspacePath p
        ({ w with hist := w.hist ++
            [⟨"user", "Here's the content of " ++ p ++ ":\n\n" ++ content⟩] },
         [content])
    else if lstarts (("write").toList) cmd then
      let rest := trimL (cmd.drop 5)
      let fp := rest.takeWhile (fun c => c ≠ ' ')
      let content := rest.drop (fp.length + 1)
      if fp = [] ∨ content = [] then (w, ["Usage: /write path content"])
      else
        let res := writeFileOp w.fs w.cfg.workspacePath fp.asString content.asString
        ({ w with fs := res.2, hist := w.hist ++
            [⟨"user", "I've written the following content to " ++ fp.asString ++ ":\n\n" ++
              content.asString⟩] },
         [res.1])
    else if lstarts (("ls").toList) cmd then
      let p0 := (trimL (cmd.drop 2)).asString
      let p := if p0 = "" then "." else p0
      let content := listFilesOp w.fs w.cfg.workspacePath p
      ({ w with hist := w.hist ++
          [⟨"user", "Directory listing of " ++ p ++ ":\n\n" ++ content⟩] },
       [content])
    else if cmd = ("models").toList then
      let ms := rooModelsMeta w.cfg.apiProvider
      match parseIntJs io.answer with
      | some n =>
        if 0 < n ∧ n ≤ (ms.length : Int) then
          let sel := ms.getD (n - 1).toNat ("", false)
          let c2 := { w.cfg with model := sel.1, isVisionEnabled := sel.2 }
          ({ w with cfg := c2, disk := .parsed (toRooFile c2) },
           ["Model changed to: " ++ sel.1])
        else if trimL io.answer.toList ≠ [] then (w, ["Invalid selection: " ++ io.answer])
        else (w, [])
      | none =>
        if trimL io.answer.toList ≠ [] then (w, ["Invalid selection: " ++ io.answer])
        else (w, [])
    else
      (w, ["Unknown command: " ++ cmd.asString])
  else
    let h1 := w.hist ++ [⟨"user", input⟩]
    if w.cfg.apiKey = "" then
      ({ w with hist := h1 },
       ["API key not set. Use /config apiKey=your_key to set it or add it to .env file.",
        "Run /env to create a template .env file."])
    else
      match io.outcome with
      | .error e => ({ w with hist := h1 }, ["Error processing request:", e])
      | .ok resp =>
        let h2 := h1 ++ [⟨"assistant", resp⟩]
        let cmds := extractCommands resp
        if cmds = [] then ({ w with hist := h2 }, [resp])
        else
          match parseIntJs io.answer with
          | some n =>
            if 0 ≤ n - 1 ∧ n - 1 < (cmds.length : Int) then
              let cmdTxt := cmds.getD (n - 1).toNat ""
              ({ w with hist := h2 ++
                  [⟨"user", "I ran the command `" ++ cmdTxt ++ "` and got this result:\n\n" ++
                    io.execResult⟩] },
               [resp, "Executing: " ++ cmdTxt, io.execResult])
            else ({ w with hist := h2 }, [resp])
          | none => ({ w with hist := h2 }, [resp])

/-- The chat-message path of `run-full-cli.js`'s `startChatSession` line handler
(the part after slash-command dispatch): unlike `roo-cli.ts`, the API-key check
runs before the user message is pushed.  Returns the new history and the lines
printed. -/
def rfChatTurn (cfg : FullConfig) (hist : List ChatMsg) (input : String)
    (outcome : Except String String) : List ChatMsg × List String :=
  if cfg.apiKey = "" then
    (hist,
     ["API key not set. Use /config apiKey=your_key_here to set it or add it to .env file.",
      "Run /env to create a template .env file."])
  else
    let h1 := hist ++ [⟨"user", input⟩]
    match outcome with
    | .error e => (h1, ["Error processing request:", e])
    | .ok resp => (h1 ++ [⟨"assistant", resp⟩], [resp])

/-- Session state of the `run-full-cli.js` REPL. -/
structure RfWorld where
  cfg : FullConfig
  hist : List ChatMsg := []
  fs : Fs := {}
  disk : FileData FullFileCfg := .missing
  running : Bool := true
deriving Repr, DecidableEq

/-- Oracle inputs consumed during one `run-full-cli.js` line: the provider-call
outcome, the answer typed at an interactive sub-prompt, the outcome of the
`isAskingForCommand` regex battery on the lowercased input (a pure but
twenty-pattern test, supplied as an oracle), the result of an executed shell
command, and the prints plus possible history append of an MCP interaction
(whole network exchanges, supplied as oracles). -/
structure RfTurnIO where
  outcome : Except String String := .error "no call"
  answer : String := ""
  isCmdQ : Bool := false
  exec : Except String String := .error "no run"
  mcpOut : List String := []
  mcpAppend : List ChatMsg := []
deriving Repr

/-- The `tryExtractAndRunCommand` of `run-full-cli.js` after its extraction part
(`rfExtract`): offer the first candidate, and when the user answers y/yes run it,
printing and appending the output or the error to history as a user entry. -/
def tryExtractAndRun (ans : String) (exec : Except String String)
    (hist : List ChatMsg) (resp : String) : List ChatMsg × List String :=
  match rfExtract resp with
  | [] => (hist, [])
  | c0 :: _ =>
    if lowerS ans = "y" ∨ lowerS ans = "yes" then
      match exec with
      | .ok outp =>
        (hist ++ [⟨"user", "I ran the command: " ++ c0 ++ "\n\nOutput:\n" ++ outp⟩],
         ["Would you like me to run this command for you? " ++ c0, "Executing: " ++ c0, outp])
      | .error e =>
        (hist ++ [⟨"user", "I tried to run the command: " ++ c0 ++ "\n\nError:\n" ++ e⟩],
         ["Would you like me to run this command for you? " ++ c0,
          "Error executing command: " ++ e])
    else (hist, ["Would you like me to run this command for you? " ++ c0])

/-- One iteration of `run-full-cli.js`'s `startChatSession` line handler: the
empty-input guard, then the slash-command dispatch chain in source order
(exit/quit, help, clear, config*, env, read*, write*, ls*, models, modes,
"mode "*, mcp, "mcp "*, unknown), else the chat path of `rfChatTurn` followed —
when the input looked like a command question — by `tryExtractAndRunCommand`.
The `/models` selection is applied through the oracle answer (the source reads
it in an un-awaited readline callback); display names in its print-out are
elided, and MCP branches print and append what their network oracle supplies
(the bare `/mcp` never appends). -/
def rfStep (io : RfTurnIO) (w : RfWorld) (input : String) : RfWorld × List String :=
  let il := input.toList
  if trimL il = [] then (w, [])
  else if lstarts ['/'] il then
    let cmd := trimL (il.drop 1)
    if cmd = ("exit").toList ∨ cmd = ("quit").toList then
      ({ w with running := false }, ["Goodbye! Thanks for using Roo Pilot CLI."])
    else if cmd = ("help").toList then
      (w, ["Roo Pilot CLI Commands:"])
    else if cmd = ("clear").toList then
      ({ w with hist := [] }, ["Chat history cleared."])
    else if lstarts (("config").toList) cmd then
      let r := rfHandleConfig w.cfg (trimL (cmd.drop 6)).asString io.answer
      let disk2 := match r.saved with
        | some c => FileData.parsed (toFullFile c)
        | none => w.disk
      ({ w with cfg := r.cfg, disk := disk2 }, r.out)
    else if cmd = ("env").toList then
      (w, ["Created .env.template file"])
    else if lstarts (("read").toList) cmd then
      let p := (trimL (cmd.drop 4)).asString
      if p = "" then (w, ["Please specify a file path to read."])
      else
        let content := readFileOp w.fs w.cfg.workspacePath p
        ({ w with hist := w.hist ++
            [⟨"user", "Here's the content of " ++ p ++ ":\n\n" ++ content⟩] },
         [content])
    else if lstarts (("write").toList) cmd then
      let rest := trimL (cmd.drop 5)
      let fp := rest.takeWhile (fun c => c ≠ ' ')
      let content := rest.drop (fp.length + 1)
      if fp = [] ∨ content = [] then (w, ["Usage: /write path content"])
      else
        let res := writeFileOp w.fs w.cfg.workspacePath fp.asString content.asString
        ({ w with fs := res.2, hist := w.hist ++
            [⟨"user", "I've written the following content to " ++ fp.asString ++ ":\n\n" ++
              content.asString⟩] },
         [res.1])
    else if lstarts (("ls").toList) cmd then
      let p0 := (trimL (cmd.drop 2)).asString
      let p := if p0 = "" then "." else p0
      let content := listFilesOp w.fs w.cfg.workspacePath p
      ({ w with hist := w.hist ++
          [⟨"user", "Directory listing of " ++ p ++ ":\n\n" ++ content⟩] },
       [content])
    else if cmd = ("models").toList then
      let ms := rfFallbackModelsMeta w.cfg.apiProvider
      match parseIntJs io.answer with
      | some n =>
        if 0 < n ∧ n ≤ (ms.length : Int) then
          let sel := ms.getD (n - 1).toNat ("", false)
          let c2 := { w.cfg with model := sel.1, isVisionEnabled := sel.2 }
          ({ w with cfg := c2, disk := .parsed (toFullFile c2) },
           ["Model changed to: " ++ sel.1])
        else if trimL io.answer.toList ≠ [] then (w, ["Invalid selection: " ++ io.answer])
        else (w, [])
      | none =>
        if trimL io.answer.toList ≠ [] then (w, ["Invalid selection: " ++ io.answer])
        else (w, [])
    else if cmd = ("modes").toList then
      (w, ["Available Modes:"])
    else if lstarts (("mode ").toList) cmd then
      let modeName := lowerS ((trimL (cmd.drop 5)).asString)
      if (mcpModes.map (fun e => e.1)).contains modeName then
        let c2 := { w.cfg with mode := modeName }
        ({ w with cfg := c2, disk := .parsed (toFullFile c2) },
         ["Mode switched to: " ++ modeName ++ " - " ++ ((mcpModes.lookup modeName).getD "")])
      else
        (w, ["Unknown mode: " ++ modeName, "Available modes:"])
    else if cmd = ("mcp").toList then
      (w, io.mcpOut)
    else if lstarts (("mcp ").toList) cmd then
      ({ w with hist := w.hist ++ io.mcpAppend }, io.mcpOut)
    else
      (w, ["Unknown command: " ++ cmd.asString])
  else
    if w.cfg.apiKey = "" then
      (w,
       ["API key not set. Use /config apiKey=your_key_here to set it or add it to .env file.",
        "Run /env to create a template .env file."])
    else
      let h1 := w.hist ++ [⟨"user", input⟩]
      match io.outcome with
      | .error e => ({ w with hist := h1 }, ["Error processing request:", e])
      | .ok resp =>
        let h2 := h1 ++ [⟨"assistant", resp⟩]
        if io.isCmdQ then
          let t := tryExtractAndRun io.answer io.exec h2 resp
          ({ w with hist := t.1 }, resp :: t.2)
        else ({ w with hist := h2 }, [resp])

example :
    (rooStep {} { cfg := rooDefaultConfig {} } ("/lsx")).1.hist.length = 1 := by decide

example :
    (rfStep {} { cfg := rfDefaultConfig {} } ("/modes")).2 = ["Available Modes:"] := by decide

example :
    (rfStep {} { cfg := rfDefaultConfig {} } ("/mode sql")).1.cfg.mode = "sql" := by decide

example :
    (rooStep {} { cfg := rooDefaultConfig {} } ("/bogus")).2 = ["Unknown command: bogus"] := by
  decide

example :
    (rooStep {} { cfg := rooDefaultConfig {} } ("/read nope.txt")).1.hist =
      [⟨"user", "Here's the content of nope.txt:\n\nError: File not found at /work/nope.txt"⟩] := by
  decide

/-- Environment key designated for a provider in `roo-cli.ts` (the variable its
override chain would consult for that provider). -/
def rooKeyOf (env : Env) (p : String) : Option String :=
  if p = "anthropic" then env.anthropicKey
  else if p = "openai" then env.openaiKey
  else if p = "openrouter" then env.openrouterKey
  else if p = "mistral" then env.mistralKey
  else if p = "groq" then env.groqKey
  else none

/-- Model field stored in a persisted `roo-cli.ts` config file, when the file parses. -/
def rooFileModel : FileData RooFileCfg → Option (Option String)
  | .parsed q => some q.model
  | _ => none

/-- Model field stored in a persisted `run-full-cli.js` config file, when the file parses. -/
def rfFileModel : FileData FullFileCfg → Option (Option String)
  | .parsed q => some q.model
  | _ => none

/-- Merging a fully-populated stored record over any defaults returns the
stored record. -/
theorem mergeRoo_toRooFile (d x : RooConfig) : mergeRoo d (toRooFile x) = x := by
  cases x
  rfl

/-- Merging a fully-populated stored record over any defaults returns the
stored record, `run-full-cli.js` version. -/
theorem mergeFull_toFullFile (d x : FullConfig) : mergeFull d (toFullFile x) = x := by
  cases x
  rfl

/-- The `roo-cli.ts` migration only ever rewrites the model field. -/
theorem rooMigrate_frame (env : Env) (c : RooConfig) :
    (rooMigrate env c).1.apiProvider = c.apiProvider ∧
    (rooMigrate env c).1.apiKey = c.apiKey ∧
    (rooMigrate env c).1.temperature = c.temperature ∧
    (rooMigrate env c).1.maxTokens = c.maxTokens ∧
    (rooMigrate env c).1.mode = c.mode ∧
    (rooMigrate env c).1.workspacePath = c.workspacePath ∧
    (rooMigrate env c).1.isVisionEnabled = c.isVisionEnabled ∧
    (rooMigrate env c).1.checkMcpOnStart = c.checkMcpOnStart := by
  unfold rooMigrate
  dsimp only
  split <;> split <;> split <;> split <;> simp_all

/-- Characterisation of the override chain of `roo-cli.ts`: only the key of the
configured provider is ever applied; any other environment variable leaves the
configuration untouched. -/
theorem rooEnvOverride_spec (env : Env) (c : RooConfig) :
    rooEnvOverride env c =
      (if truthyS (rooKeyOf env c.apiProvider) then
        { c with apiKey := (rooKeyOf env c.apiProvider).getD "" }
      else c) := by
  by_cases h1 : c.apiProvider = "anthropic"
  · simp [rooEnvOverride, rooKeyOf, h1]
  · by_cases h2 : c.apiProvider = "openai"
    · simp [rooEnvOverride, rooKeyOf, h1, h2]
    · by_cases h3 : c.apiProvider = "openrouter"
      · simp [rooEnvOverride, rooKeyOf, h1, h2, h3]
      · by_cases h4 : c.apiProvider = "mistral"
        · simp [rooEnvOverride, rooKeyOf, h1, h2, h3, h4]
        · by_cases h5 : c.apiProvider = "groq"
          · simp [rooEnvOverride, rooKeyOf, h1, h2, h3, h4, h5]
          · simp [rooEnvOverride, rooKeyOf, h1, h2, h3, h4, h5, truthyS]

/-- The switch/override block of `run-full-cli.js` touches only the provider and
key fields. -/
theorem rfSwitch_frame (env : Env) (c : FullConfig) :
    (rfSwitch env c).model = c.model ∧
    (rfSwitch env c).temperature = c.temperature ∧
    (rfSwitch env c).maxTokens = c.maxTokens ∧
    (rfSwitch env c).mode = c.mode ∧
    (rfSwitch env c).workspacePath = c.workspacePath ∧
    (rfSwitch env c).isVisionEnabled = c.isVisionEnabled ∧
    (rfSwitch env c).mcpServerAddress = c.mcpServerAddress ∧
    (rfSwitch env c).checkMcpOnStart = c.checkMcpOnStart := by
  unfold rfSwitch
  repeat' split
  all_goals exact ⟨rfl, rfl, rfl, rfl, rfl, rfl, rfl, rfl⟩

/-- The two groq rewrites of `run-full-cli.js`'s load path touch only the model
field; the subsequent switch/override block touches only provider and key. -/
theorem rfInitialize_parsed_frame (p : FullFileCfg) (env : Env) :
    (rfInitialize (.parsed p) env).1.temperature =
      (mergeFull (rfDefaultConfig env) p).temperature ∧
    (rfInitialize (.parsed p) env).1.maxTokens =
      (mergeFull (rfDefaultConfig env) p).maxTokens ∧
    (rfInitialize (.parsed p) env).1.mode = (mergeFull (rfDefaultConfig env) p).mode ∧
    (rfInitialize (.parsed p) env).1.workspacePath =
      (mergeFull (rfDefaultConfig env) p).workspacePath := by
  unfold rfInitialize
  dsimp only
  repeat' split
  all_goals
    exact ⟨(rfSwitch_frame _ _).2.1, (rfSwitch_frame _ _).2.2.1,
           (rfSwitch_frame _ _).2.2.2.1, (rfSwitch_frame _ _).2.2.2.2.1⟩

/-- A regex matcher anchored on a backtick finds nothing in backtick-free text. -/
theorem scanWith_eq_nil (f : Char → List Char → Option (List Char × Nat))
    (hf : ∀ c cs, c ≠ '`' → f c cs = none) :
    ∀ fuel l, '`' ∉ l → scanWith f fuel l = [] := by
  intro fuel
  induction fuel with
  | zero => intro l _; rfl
  | succ n ih =>
    intro l hl
    cases l with
    | nil => rfl
    | cons c cs =>
      have hc : c ≠ '`' := fun h => hl (h ▸ List.mem_cons_self c cs)
      have hcs : '`' ∉ cs := fun h => hl (List.mem_cons_of_mem c h)
      simp [scanWith, hf c cs hc, ih cs hcs]

/-- The `roo-cli.ts` block matcher is anchored on a backtick. -/
theorem rooBlockAt_eq_none (c : Char) (cs : List Char) (h : c ≠ '`') :
    rooBlockAt c cs = none := by
  simp [rooBlockAt, h]

/-- The inline matcher is anchored on a backtick. -/
theorem inlineAt_eq_none (c : Char) (cs : List Char) (h : c ≠ '`') :
    inlineAt c cs = none := by
  simp [inlineAt, h]

/-- The `run-full-cli.js` block matcher is anchored on a backtick. -/
theorem rfBlockAt_eq_none (c : Char) (cs : List Char) (h : c ≠ '`') :
    rfBlockAt c cs = none := by
  simp [rfBlockAt, h]

/-- Backtick-free text yields no candidates from either extractor. -/
theorem extract_nil_of_no_backtick (t : String) (h : '`' ∉ t.toList) :
    extractCommands t = [] ∧ rfExtract t = [] := by
  have hb : rooScanBlocks t.toList = [] :=
    scanWith_eq_nil rooBlockAt rooBlockAt_eq_none t.toList.length t.toList h
  have hi : scanInline t.toList = [] :=
    scanWith_eq_nil inlineAt inlineAt_eq_none t.toList.length t.toList h
  have hr : rfScanBlocks t.toList = [] :=
    scanWith_eq_nil rfBlockAt rfBlockAt_eq_none t.toList.length t.toList h
  constructor
  · unfold extractCommands
    rw [hb, hi]
    simp [dedupFirst, dedupFirstF]
  · unfold rfExtract
    rw [hr, hi]
    simp

/-- Claim C1: loading a persisted config with apiProvider "groq" and the legacy
model identifier "llama-3-70b-8192" rewrites the model to the current Llama 3.3
alias ("llama3-3-70b-versatile" in `roo-cli.ts`, "llama-3.3-70b-versatile" in
`run-full-cli.js`), persists the rewritten config, and a second load of the
rewritten file changes neither the model nor the file again.  Hypotheses: the
`DISABLE_AUTO_UPGRADE` escape hatch is unset, and (for `run-full-cli.js`) the
environment does not trigger the provider switch away from groq (a groq key is
present, or no provider key is available). -/
theorem c1_legacy_groq_model_migration
    (pc : RooFileCfg) (pf : FullFileCfg) (env : Env)
    (hp : pc.apiProvider = some "groq") (hm : pc.model = some "llama-3-70b-8192")
    (hd : env.disableAutoUpgrade = false)
    (hfp : pf.apiProvider = some "groq") (hfm : pf.model = some "llama-3-70b-8192")
    (hg : truthyS env.groqKey = true ∨ rfCount env = 0) :
    ((rooInitialize (.parsed pc) env).1.model = "llama3-3-70b-versatile" ∧
     rooFileModel (rooInitialize (.parsed pc) env).2.1 =
       some (some "llama3-3-70b-versatile") ∧
     (rooInitialize (rooInitialize (.parsed pc) env).2.1 env).1.model =
       "llama3-3-70b-versatile" ∧
     (rooInitialize (rooInitialize (.parsed pc) env).2.1 env).2.1 =
       (rooInitialize (.parsed pc) env).2.1) ∧
    ((rfInitialize (.parsed pf) env).1.model = "llama-3.3-70b-versatile" ∧
     (rfInitialize (.parsed pf) env).1.apiProvider = "groq" ∧
     rfFileModel (rfInitialize (.parsed pf) env).2.1 =
       some (some "llama-3.3-70b-versatile") ∧
     (rfInitialize (rfInitialize (.parsed pf) env).2.1 env).1.model =
       "llama-3.3-70b-versatile" ∧
     (rfInitialize (rfInitialize (.parsed pf) env).2.1 env).2.1 =
       (rfInitialize (.parsed pf) env).2.1) := by
  have h1 : (mergeRoo (rooDefaultConfig env) pc).apiProvider = "groq" := by
    simp [mergeRoo, hp]
  have h2 : (mergeRoo (rooDefaultConfig env) pc).model = "llama-3-70b-8192" := by
    simp [mergeRoo, hm]
  have hmig :
      rooMigrate env (mergeRoo (rooDefaultConfig env) pc) =
        ({ mergeRoo (rooDefaultConfig env) pc with model := "llama3-3-70b-versatile" },
         true) := by
    simp [rooMigrate, h1, h2, hd]
  have hroo1 :
      rooInitialize (.parsed pc) env =
        (rooEnvOverride env
           { mergeRoo (rooDefaultConfig env) pc with model := "llama3-3-70b-versatile" },
         .parsed (toRooFile
           { mergeRoo (rooDefaultConfig env) pc with model := "llama3-3-70b-versatile" }),
         ["Model upgraded to: llama3-3-70b-versatile"]) := by
    simp [rooInitialize, hmig]
  have hover :
      ∀ c : RooConfig,
        (rooEnvOverride env c).model = c.model ∧
          (rooEnvOverride env c).apiProvider = c.apiProvider := by
    intro c
    rw [rooEnvOverride_spec]
    split <;> simp
  have hmig2 :
      rooMigrate env
        { mergeRoo (rooDefaultConfig env) pc with model := "llama3-3-70b-versatile" } =
        ({ mergeRoo (rooDefaultConfig env) pc with model := "llama3-3-70b-versatile" },
         false) := by
    simp [rooMigrate, h1]
  have hroo2 :
      rooInitialize
          (.parsed (toRooFile
            { mergeRoo (rooDefaultConfig env) pc with model := "llama3-3-70b-versatile" }))
          env =
        (rooEnvOverride env
           { mergeRoo (rooDefaultConfig env) pc with model := "llama3-3-70b-versatile" },
         .parsed (toRooFile
           { mergeRoo (rooDefaultConfig env) pc with model := "llama3-3-70b-versatile" }),
         []) := by
    simp [rooInitialize, mergeRoo_toRooFile, hmig2]
  refine ⟨⟨?_, ?_, ?_, ?_⟩, ?_⟩
  · rw [hroo1]
    exact (hover _).1
  · rw [hroo1]
    rfl
  · rw [hroo1]
    dsimp only
    rw [hroo2]
    exact (hover _).1
  · rw [hroo1]
    dsimp only
    rw [hroo2]
  · have f1 : (mergeFull (rfDefaultConfig env) pf).apiProvider = "groq" := by
      simp [mergeFull, hfp]
    have f2 : (mergeFull (rfDefaultConfig env) pf).model = "llama-3-70b-8192" := by
      simp [mergeFull, hfm]
    have hrf1 :
        rfInitialize (.parsed pf) env =
          (rfSwitch env
             { mergeFull (rfDefaultConfig env) pf with model := "llama-3.3-70b-versatile" },
           .parsed (toFullFile
             { mergeFull (rfDefaultConfig env) pf with model := "llama-3.3-70b-versatile" }),
           []) := by
      simp [rfInitialize, f1, f2]
    have hrf2 :
        rfInitialize
            (.parsed (toFullFile
              { mergeFull (rfDefaultConfig env) pf with
                  model := "llama-3.3-70b-versatile" }))
            env =
          (rfSwitch env
             { mergeFull (rfDefaultConfig env) pf with model := "llama-3.3-70b-versatile" },
           .parsed (toFullFile
             { mergeFull (rfDefaultConfig env) pf with model := "llama-3.3-70b-versatile" }),
           []) := by
      simp [rfInitialize, mergeFull_toFullFile]
    have hprov : ∀ c : FullConfig, c.apiProvider = "groq" →
        (rfSwitch env c).apiProvider = "groq" := by
      intro c hcp
      unfold rfSwitch
      have hkey : rfKeyOf env ("groq") = env.groqKey := by simp [rfKeyOf]
      rcases hg with hg | hg
      · simp [hkey, hg, hcp]
      · simp [hg]
        split <;> simp [hcp]
    refine ⟨?_, ?_, ?_, ?_, ?_⟩
    · rw [hrf1]
      exact (rfSwitch_frame _ _).1
    · rw [hrf1]
      exact hprov _ f1
    · rw [hrf1]
      rfl
    · rw [hrf1]
      dsimp only
      rw [hrf2]
      exact (rfSwitch_frame _ _).1
    · rw [hrf1]
      dsimp only
      rw [hrf2]


/-- Witness for C1 at the concrete persisted config of the claim and an empty
environment. -/
theorem c1_legacy_groq_model_migration_witness :
    (rooInitialize
        (.parsed { apiProvider := some "groq", model := some "llama-3-70b-8192" })
        {}).1.model = "llama3-3-70b-versatile" ∧
    (rfInitialize
        (.parsed { apiProvider := some "groq", model := some "llama-3-70b-8192" })
        {}).1.model = "llama-3.3-70b-versatile" :=
  ⟨(c1_legacy_groq_model_migration
      { apiProvider := some "groq", model := some "llama-3-70b-8192" }
      { apiProvider := some "groq", model := some "llama-3-70b-8192" }
      {} rfl rfl rfl rfl rfl (Or.inr (by decide))).1.1,
   (c1_legacy_groq_model_migration
      { apiProvider := some "groq", model := some "llama-3-70b-8192" }
      { apiProvider := some "groq", model := some "llama-3-70b-8192" }
      {} rfl rfl rfl rfl rfl (Or.inr (by decide))).2.1⟩

/-- Load path of `run-full-cli.js` up to the switch block: some intermediate
config (the groq-migrated merge) reaches `rfSwitch`, and the migrations leave
provider and key untouched. -/
theorem rfInitialize_parsed_pk (p : FullFileCfg) (env : Env) :
    ∃ c : FullConfig, (rfInitialize (.parsed p) env).1 = rfSwitch env c ∧
      c.apiProvider = (mergeFull (rfDefaultConfig env) p).apiProvider ∧
      c.apiKey = (mergeFull (rfDefaultConfig env) p).apiKey := by
  unfold rfInitialize
  dsimp only
  repeat' split
  all_goals exact ⟨_, rfl, rfl, rfl⟩

/-- Counterexample to claim C2 as stated: with the persisted provider groq (and
a persisted key) and only `ANTHROPIC_API_KEY` set, the `run-full-cli.js`
resolver does not leave the configured provider and apiKey unchanged — it
switches both to anthropic. -/
theorem c2_counterexample_provider_switch :
    (rfInitialize
        (.parsed (toFullFile
          { apiProvider := "groq", apiKey := "persisted-key",
            model := "llama-3.3-70b-versatile", temperature := some (3 / 10),
            maxTokens := some 4096, workspacePath := "/w", isVisionEnabled := false,
            mode := "assistant", mcpServerAddress := "http://localhost:3000",
            checkMcpOnStart := false }))
        { anthropicKey := some "A" }).1.apiProvider = "anthropic" ∧
    (rfInitialize
        (.parsed (toFullFile
          { apiProvider := "groq", apiKey := "persisted-key",
            model := "llama-3.3-70b-versatile", temperature := some (3 / 10),
            maxTokens := some 4096, workspacePath := "/w", isVisionEnabled := false,
            mode := "assistant", mcpServerAddress := "http://localhost:3000",
            checkMcpOnStart := false }))
        { anthropicKey := some "A" }).1.apiKey = "A" := by
  constructor <;> decide

/-- Claim C2 as amended: with a fully-populated persisted file, loaded values win
over defaults end to end (shown on the fields the pipeline never touches), and
`roo-cli.ts` applies an environment key only when it belongs to the configured
provider, leaving provider and key unchanged otherwise; `run-full-cli.js` behaves
that way only when the configured provider has a truthy key or no provider key is
available at all — when the configured provider lacks a key and another is
available it switches provider and key to the first available provider (priority
groq, anthropic, openai, mistral). -/
theorem c2_env_override_amended (x : RooConfig) (y : FullConfig) (env : Env) :
    (mergeRoo (rooDefaultConfig env) (toRooFile x) = x ∧
     (rooInitialize (.parsed (toRooFile x)) env).1.apiProvider = x.apiProvider ∧
     (truthyS (rooKeyOf env x.apiProvider) = true →
       (rooInitialize (.parsed (toRooFile x)) env).1.apiKey =
         (rooKeyOf env x.apiProvider).getD "") ∧
     (truthyS (rooKeyOf env x.apiProvider) = false →
       (rooInitialize (.parsed (toRooFile x)) env).1.apiKey = x.apiKey) ∧
     (rooInitialize (.parsed (toRooFile x)) env).1.temperature = x.temperature ∧
     (rooInitialize (.parsed (toRooFile x)) env).1.maxTokens = x.maxTokens ∧
     (rooInitialize (.parsed (toRooFile x)) env).1.mode = x.mode ∧
     (rooInitialize (.parsed (toRooFile x)) env).1.workspacePath = x.workspacePath) ∧
    (mergeFull (rfDefaultConfig env) (toFullFile y) = y ∧
     (truthyS (rfKeyOf env y.apiProvider) = true →
       (rfInitialize (.parsed (toFullFile y)) env).1.apiProvider = y.apiProvider ∧
       (rfInitialize (.parsed (toFullFile y)) env).1.apiKey =
         (rfKeyOf env y.apiProvider).getD "") ∧
     (truthyS (rfKeyOf env y.apiProvider) = false ∧ rfCount env = 0 →
       (rfInitialize (.parsed (toFullFile y)) env).1.apiProvider = y.apiProvider ∧
       (rfInitialize (.parsed (toFullFile y)) env).1.apiKey = y.apiKey) ∧
     (truthyS (rfKeyOf env y.apiProvider) = false ∧ 0 < rfCount env →
       (rfInitialize (.parsed (toFullFile y)) env).1.apiProvider =
         (rfAvailable env).headD "groq" ∧
       (rfInitialize (.parsed (toFullFile y)) env).1.apiKey =
         (rfKeyOf env ((rfAvailable env).headD "groq")).getD "")) := by
  have h1 : (rooInitialize (.parsed (toRooFile x)) env).1 =
      rooEnvOverride env (rooMigrate env x).1 := by
    simp [rooInitialize, mergeRoo_toRooFile]
  obtain ⟨fp, fk, ftemp, fmax, fmode, fws, _, _⟩ := rooMigrate_frame env x
  have ho := rooEnvOverride_spec env (rooMigrate env x).1
  obtain ⟨c, hceq, hcp, hck⟩ := rfInitialize_parsed_pk (toFullFile y) env
  rw [mergeFull_toFullFile] at hcp hck
  refine ⟨⟨mergeRoo_toRooFile _ x, ?_, ?_, ?_, ?_, ?_, ?_, ?_⟩,
          mergeFull_toFullFile _ y, ?_, ?_, ?_⟩
  · rw [h1, ho, fp]
    split <;> simp [fp]
  · intro ht
    rw [h1, ho, fp]
    simp [ht]
  · intro hf
    rw [h1, ho, fp]
    simp [hf, fk]
  · rw [h1, ho]
    split <;> simp [ftemp]
  · rw [h1, ho]
    split <;> simp [fmax]
  · rw [h1, ho]
    split <;> simp [fmode]
  · rw [h1, ho]
    split <;> simp [fws]
  · intro ht
    rw [hceq]
    unfold rfSwitch
    rw [hcp]
    simp [ht, hcp, hck]
  · rintro ⟨hf, h0⟩
    rw [hceq]
    unfold rfSwitch
    rw [hcp]
    simp [hf, h0, hcp, hck]
  · rintro ⟨hf, hpos⟩
    rw [hceq]
    unfold rfSwitch
    rw [hcp]
    simp [hf, hpos]

/-- Counterexample to claim C3 as stated: a failed `/read` of a missing file is
surfaced as an inline error string, but the chat history is NOT left unchanged —
the dispatcher appends its synthetic user entry (embedding the error string)
exactly as on the success path. -/
theorem c3_counterexample_read_error_appended :
    (rooStep {} { cfg := rooDefaultConfig {} } ("/read nope.txt")).1.hist.length = 1 ∧
    (rooStep {} { cfg := rooDefaultConfig {} } ("/read nope.txt")).2 =
      ["Error: File not found at /work/nope.txt"] := by
  constructor <;> decide

/-- Claim C3 as amended: file-system failures of `/read`, `/ls` and `/write`
(missing file, missing directory, write permission failure) are recovered
locally and surfaced as inline error strings, the loop keeps running, but each
failed operation still appends one synthetic user-role history entry — the same
entry the success path appends, with the error string (for `/read` and `/ls`)
embedded in it. -/
theorem c3_io_error_amended (w : RooWorld) (io : TurnIO)
    (hr : w.fs.files.lookup (w.cfg.workspacePath ++ "/nope.txt") = none)
    (hl : w.fs.dirs.lookup (w.cfg.workspacePath ++ "/nodir") = none)
    (hw : w.fs.writeDenied.contains (w.cfg.workspacePath ++ "/locked.txt") = true) :
    rooStep io w ("/read nope.txt") =
      ({ w with hist := w.hist ++
          [⟨"user", "Here's the content of nope.txt:\n\nError: File not found at " ++
            (w.cfg.workspacePath ++ "/nope.txt")⟩] },
       ["Error: File not found at " ++ (w.cfg.workspacePath ++ "/nope.txt")]) ∧
    rooStep io w ("/ls nodir") =
      ({ w with hist := w.hist ++
          [⟨"user", "Directory listing of nodir:\n\nError: Directory not found at " ++
            (w.cfg.workspacePath ++ "/nodir")⟩] },
       ["Error: Directory not found at " ++ (w.cfg.workspacePath ++ "/nodir")]) ∧
    rooStep io w ("/write locked.txt hello") =
      ({ w with hist := w.hist ++
          [⟨"user", "I've written the following content to locked.txt:\n\nhello"⟩] },
       ["Error writing file: EACCES"]) := by
  refine ⟨?_, ?_, ?_⟩
  · have h0 : rooStep io w ("/read nope.txt") =
        ({ w with hist := w.hist ++
            [⟨"user", "Here's the content of nope.txt:\n\n" ++
              readFileOp w.fs w.cfg.workspacePath "nope.txt"⟩] },
         [readFileOp w.fs w.cfg.workspacePath "nope.txt"]) := rfl
    have h2 : readFileOp w.fs w.cfg.workspacePath "nope.txt" =
        "Error: File not found at " ++ (w.cfg.workspacePath ++ "/nope.txt") := by
      unfold readFileOp
      dsimp only
      rw [show resolvePath w.cfg.workspacePath "nope.txt" =
            w.cfg.workspacePath ++ "/nope.txt" from rfl, hr]
    rw [h0, h2]
    exact rfl
  · have h0 : rooStep io w ("/ls nodir") =
        ({ w with hist := w.hist ++
            [⟨"user", "Directory listing of nodir:\n\n" ++
              listFilesOp w.fs w.cfg.workspacePath "nodir"⟩] },
         [listFilesOp w.fs w.cfg.workspacePath "nodir"]) := rfl
    have h2 : listFilesOp w.fs w.cfg.workspacePath "nodir" =
        "Error: Directory not found at " ++ (w.cfg.workspacePath ++ "/nodir") := by
      unfold listFilesOp
      dsimp only
      rw [show resolvePath w.cfg.workspacePath "nodir" =
            w.cfg.workspacePath ++ "/nodir" from rfl, hl]
    rw [h0, h2]
    exact rfl
  · have h0 : rooStep io w ("/write locked.txt hello") =
        ({ w with
            fs := (writeFileOp w.fs w.cfg.workspacePath "locked.txt" "hello").2
            hist := w.hist ++
              [⟨"user", "I've written the following content to locked.txt:\n\nhello"⟩] },
         [(writeFileOp w.fs w.cfg.workspacePath "locked.txt" "hello").1]) := rfl
    have h2 : writeFileOp w.fs w.cfg.workspacePath "locked.txt" "hello" =
        ("Error writing file: EACCES", w.fs) := by
      unfold writeFileOp
      dsimp only
      rw [show resolvePath w.cfg.workspacePath "locked.txt" =
            w.cfg.workspacePath ++ "/locked.txt" from rfl, hw]
      simp
    rw [h0, h2]

/-- Witness for C3 as amended, at a file system where only the write-denied
path is present. -/
theorem c3_io_error_amended_witness :
    rooStep {} { cfg := rooDefaultConfig {}, fs := { writeDenied := ["/work/locked.txt"] } }
        ("/read nope.txt") =
      ({ cfg := rooDefaultConfig {}, fs := { writeDenied := ["/work/locked.txt"] }, hist :=
          [⟨"user", "Here's the content of nope.txt:\n\nError: File not found at " ++
            ("/work" ++ "/nope.txt")⟩] },
       ["Error: File not found at " ++ ("/work" ++ "/nope.txt")]) :=
  (c3_io_error_amended
    { cfg := rooDefaultConfig {}, fs := { writeDenied := ["/work/locked.txt"] } } {}
    (by decide) (by decide) (by decide)).1

/-- Counterexample to claim C4 as stated: in `roo-cli.ts`'s `extractCommands`,
lines of multi-line fenced blocks are never kept as candidates, even when they
start with an allow-listed verb — the allow-listed line "cat a.txt" of the block
is absent, and the only candidate is the whole inner text (picked up by the
inline-span heuristic), which is not a line of the block at all. -/
theorem c4_counterexample_multiline_block :
    "cat a.txt" ∉ extractCommands ("```\ncat a.txt\nfoo bar\n```") ∧
    extractCommands ("```\ncat a.txt\nfoo bar\n```") = ["cat a.txt\nfoo bar"] := by
  constructor <;> decide

/-- Claim C4 as amended: a reply with no backtick yields zero candidates from
both extractors (so no execution prompt); both treat a single-line fenced block
as a candidate outright; multi-line fenced blocks are filtered to allow-listed
lines only in `run-full-cli.js` (`roo-cli.ts` drops their block capture and at
most re-reads the inner text through its inline-span filter); and
`run-full-cli.js` consults inline spans only when the fenced blocks produced no
candidate, while `roo-cli.ts` always scans them with its longer prefix list. -/
theorem c4_extraction_amended :
    (∀ t : String, '`' ∉ t.toList → extractCommands t = [] ∧ rfExtract t = []) ∧
    extractCommands ("```\nls -la\n```") = ["ls -la"] ∧
    rfExtract ("```\nls -la\n```") = ["ls -la"] ∧
    rfExtract ("```\ncat a.txt\nfoo bar\n```") = ["cat a.txt"] ∧
    rfExtract ("```\nwc -l f.txt\n# note\nxyz\n```") = ["wc -l f.txt"] ∧
    rfExtract ("Run ```\npwd\n``` or `ls -la`.") = ["pwd"] ∧
    rfExtract ("Use `ls -la` please") = ["ls -la"] ∧
    extractCommands ("A `ls -la` span and block ```\npwd\n```") = ["pwd", "ls -la"] := by
  refine ⟨fun t h => extract_nil_of_no_backtick t h, ?_, ?_, ?_, ?_, ?_, ?_, ?_⟩ <;> decide

/-- Counterexample to claim C7 as stated: the input "/lsx" has the command word
"lsx", which is not in the command vocabulary, yet the dispatcher routes it to
the `/ls` handler via its prefix test: a history entry is appended (the claimed
behaviour is an unchanged history) and the output is a directory error, not the
unknown-command message. -/
theorem c7_counterexample_prefix_routing :
    (rooStep {} { cfg := rooDefaultConfig {} } ("/lsx")).1.hist.length = 1 ∧
    (rooStep {} { cfg := rooDefaultConfig {} } ("/lsx")).2 =
      ["Error: Directory not found at /work/x"] ∧
    (rooStep {} { cfg := rooDefaultConfig {} } ("/lsx")).2 ≠ ["Unknown command: lsx"] := by
  refine ⟨?_, ?_, ?_⟩ <;> decide

/-- Text beginning with a slash never trims to nothing: the slash itself is not
whitespace, so both REPLs treat such a line as a slash command. -/
theorem trimL_slash_ne_nil (l : List Char) : trimL ('/' :: l) ≠ [] := by
  unfold trimL
  intro hcon
  rw [List.reverse_eq_nil_iff, List.dropWhile_eq_nil_iff] at hcon
  have hd : List.dropWhile isJsSpace ('/' :: l) = '/' :: l := by
    simp [List.dropWhile_cons, isJsSpace]
  have hm : '/' ∈ (List.dropWhile isJsSpace ('/' :: l)).reverse := by
    rw [hd]
    simp
  have hws := hcon '/' hm
  simp [isJsSpace] at hws

/-- Claim C7 as amended: in each CLI, an input line beginning with '/' whose
trimmed remainder matches none of that dispatcher's handlers prints the
unknown-command error, does not raise, and changes nothing — history, config,
file system, persisted file and running flag all stay as they were.  The
handler set is exit, quit, help, clear, env, models (exact) and config, read,
write, ls (prefix) in `roo-cli.ts`; `run-full-cli.js` additionally dispatches
modes, mcp (exact) and "mode ", "mcp " (prefix).  Because dispatch is by
string prefix, a command word that merely extends a prefix-dispatched handler
name (the final conjunct: /lsx in `run-full-cli.js`, the counterexample for
`roo-cli.ts`) is instead routed to that handler, which can append to history. -/
theorem c7_unknown_command_amended (w : RooWorld) (wf : RfWorld)
    (io : TurnIO) (iof : RfTurnIO) (cmd : List Char)
    (htrim : trimL cmd = cmd)
    (h1 : cmd ≠ ("exit").toList) (h2 : cmd ≠ ("quit").toList)
    (h3 : cmd ≠ ("help").toList) (h4 : cmd ≠ ("clear").toList)
    (h5 : lstarts (("config").toList) cmd = false) (h6 : cmd ≠ ("env").toList)
    (h7 : lstarts (("read").toList) cmd = false)
    (h8 : lstarts (("write").toList) cmd = false)
    (h9 : lstarts (("ls").toList) cmd = false) (h10 : cmd ≠ ("models").toList)
    (h11 : cmd ≠ ("modes").toList)
    (h12 : lstarts (("mode ").toList) cmd = false)
    (h13 : cmd ≠ ("mcp").toList)
    (h14 : lstarts (("mcp ").toList) cmd = false) :
    rooStep io w (String.mk ('/' :: cmd)) = (w, ["Unknown command: " ++ cmd.asString]) ∧
    rfStep iof wf (String.mk ('/' :: cmd)) = (wf, ["Unknown command: " ++ cmd.asString]) ∧
    (rfStep {} { cfg := rfDefaultConfig {} } ("/lsx")).1.hist.length = 1 := by
  simp only [String.toList] at h1 h2 h3 h4 h5 h6 h7 h8 h9 h10 h11 h12 h13 h14
  simp at h1 h2 h3 h4 h5 h6 h7 h8 h9 h10 h11 h12 h13 h14
  refine ⟨?_, ?_, by decide⟩
  · unfold rooStep
    simp [String.toList, lstarts, htrim, h1, h2, h3, h4, h5, h6, h7, h8, h9, h10]
  · unfold rfStep
    simp [String.toList, lstarts, htrim, trimL_slash_ne_nil cmd,
      h1, h2, h3, h4, h5, h6, h7, h8, h9, h10, h11, h12, h13, h14]

/-- Witness for C7 as amended at the unknown command "/bogus", for both CLIs. -/
theorem c7_unknown_command_amended_witness :
    rooStep {} { cfg := rooDefaultConfig {} } (String.mk ('/' :: ("bogus").toList)) =
      ({ cfg := rooDefaultConfig {} }, ["Unknown command: " ++ ("bogus").toList.asString]) ∧
    rfStep {} { cfg := rfDefaultConfig {} } (String.mk ('/' :: ("bogus").toList)) =
      ({ cfg := rfDefaultConfig {} }, ["Unknown command: " ++ ("bogus").toList.asString]) :=
  ⟨(c7_unknown_command_amended { cfg := rooDefaultConfig {} } { cfg := rfDefaultConfig {} }
      {} {} (("bogus").toList) (by decide) (by decide) (by decide) (by decide) (by decide)
      (by decide) (by decide) (by decide) (by decide) (by decide) (by decide) (by decide)
      (by decide) (by decide) (by decide)).1,
   (c7_unknown_command_amended { cfg := rooDefaultConfig {} } { cfg := rfDefaultConfig {} }
      {} {} (("bogus").toList) (by decide) (by decide) (by decide) (by decide) (by decide)
      (by decide) (by decide) (by decide) (by decide) (by decide) (by decide) (by decide)
      (by decide) (by decide) (by decide)).2.1⟩

/-- Counterexample to claim C6 as stated: in `run-full-cli.js` the missing-API-key
check runs before the user message is pushed, so after the failed turn the
history does not contain the user message at all (the claim says it remains). -/
theorem c6_counterexample_missing_key :
    (rfChatTurn (rfDefaultConfig {}) [] ("hello") (.error "network")).1 = [] ∧
    (⟨"user", "hello"⟩ : ChatMsg) ∉
      (rfChatTurn (rfDefaultConfig {}) [] ("hello") (.error "network")).1 := by
  constructor <;> decide

/-- Claim C6 as amended: when the provider request fails (thrown network error or
non-success response) both CLIs print the error, keep the session alive, and
leave exactly the user message for the turn in history with no assistant entry;
when the API key is missing, `roo-cli.ts` still appends the user message before
bailing out, while `run-full-cli.js` returns before pushing, leaving the history
entirely unchanged. -/
theorem c6_provider_error_amended (w : RooWorld) (io : TurnIO) (input e : String)
    (cf : FullConfig) (h : List ChatMsg)
    (hs : lstarts ['/'] input.toList = false) :
    (w.cfg.apiKey = "" →
      rooStep io w input = ({ w with hist := w.hist ++ [⟨"user", input⟩] },
        ["API key not set. Use /config apiKey=your_key to set it or add it to .env file.",
         "Run /env to create a template .env file."])) ∧
    (io.outcome = .error e → w.cfg.apiKey ≠ "" →
      rooStep io w input = ({ w with hist := w.hist ++ [⟨"user", input⟩] },
        ["Error processing request:", e])) ∧
    (cf.apiKey = "" →
      rfChatTurn cf h input (.error e) = (h,
        ["API key not set. Use /config apiKey=your_key_here to set it or add it to .env file.",
         "Run /env to create a template .env file."])) ∧
    (cf.apiKey ≠ "" →
      rfChatTurn cf h input (.error e) =
        (h ++ [⟨"user", input⟩], ["Error processing request:", e])) := by
  simp only [String.toList] at hs
  refine ⟨?_, ?_, ?_, ?_⟩
  · intro hk
    unfold rooStep
    simp [String.toList, hs, hk]
  · intro ho hk
    unfold rooStep
    simp [String.toList, hs, hk, ho]
  · intro hk
    unfold rfChatTurn
    simp [hk]
  · intro hk
    unfold rfChatTurn
    simp [hk]

/-- Witness for C6 as amended: a failed request with a set key keeps the user
message and adds no assistant message. -/
theorem c6_provider_error_amended_witness :
    rooStep { outcome := .error "boom" }
        { cfg := { rooDefaultConfig {} with apiKey := "K" } } ("hi") =
      ({ cfg := { rooDefaultConfig {} with apiKey := "K" },
         hist := [⟨"user", "hi"⟩] },
       ["Error processing request:", "boom"]) :=
  ((c6_provider_error_amended { cfg := { rooDefaultConfig {} with apiKey := "K" } }
      { outcome := .error "boom" } ("hi") ("boom") (rfDefaultConfig {}) []
      (by decide)).2.1) rfl (by decide)

/-- Claim C5: on first run (no persisted file) both initializers seed defaults,
scan the provider API-key variables in their fixed priority order, adopt the
first present provider with a provider-appropriate default model, and write the
resulting config to disk.  For every provider with a designated environment
variable (anthropic, openai, openrouter, mistral, groq in `roo-cli.ts`; groq,
anthropic, openai, mistral in `run-full-cli.js`), setting only that variable
selects that provider; the final conjuncts show the priority order (anthropic
first in `roo-cli.ts`, groq first in `run-full-cli.js`). -/
theorem c5_first_run_env_scan (k : String) (env : Env)
    (hk : trimL k.toList ≠ []) :
    ((rooInitialize .missing { anthropicKey := some k }).1.apiProvider = "anthropic" ∧
     (rooInitialize .missing { anthropicKey := some k }).1.apiKey = k ∧
     (rooInitialize .missing { anthropicKey := some k }).1.model =
       "claude-3-7-sonnet-20240229" ∧
     (rooInitialize .missing { anthropicKey := some k }).2.1 =
       .parsed (toRooFile (rooInitialize .missing { anthropicKey := some k }).1)) ∧
    ((rooInitialize .missing { openaiKey := some k }).1.apiProvider = "openai" ∧
     (rooInitialize .missing { openaiKey := some k }).1.apiKey = k ∧
     (rooInitialize .missing { openaiKey := some k }).1.model = "gpt-4o" ∧
     (rooInitialize .missing { openaiKey := some k }).2.1 =
       .parsed (toRooFile (rooInitialize .missing { openaiKey := some k }).1)) ∧
    ((rooInitialize .missing { openrouterKey := some k }).1.apiProvider = "openrouter" ∧
     (rooInitialize .missing { openrouterKey := some k }).1.apiKey = k ∧
     (rooInitialize .missing { openrouterKey := some k }).1.model =
       "anthropic/claude-3-7-sonnet") ∧
    ((rooInitialize .missing { mistralKey := some k }).1.apiProvider = "mistral" ∧
     (rooInitialize .missing { mistralKey := some k }).1.apiKey = k ∧
     (rooInitialize .missing { mistralKey := some k }).1.model = "mistral-large-latest") ∧
    ((rooInitialize .missing { groqKey := some k }).1.apiProvider = "groq" ∧
     (rooInitialize .missing { groqKey := some k }).1.apiKey = k ∧
     (rooInitialize .missing { groqKey := some k }).1.model = "llama3-70b-8192") ∧
    ((rfInitialize .missing { groqKey := some k }).1.apiProvider = "groq" ∧
     (rfInitialize .missing { groqKey := some k }).1.apiKey = k ∧
     (rfInitialize .missing { groqKey := some k }).1.model = "llama-3.3-70b-versatile" ∧
     (rfInitialize .missing { groqKey := some k }).2.1 =
       .parsed (toFullFile (rfInitialize .missing { groqKey := some k }).1)) ∧
    ((rfInitialize .missing { anthropicKey := some k }).1.apiProvider = "anthropic" ∧
     (rfInitialize .missing { anthropicKey := some k }).1.apiKey = k ∧
     (rfInitialize .missing { anthropicKey := some k }).1.model =
       "claude-3-7-sonnet-20240229") ∧
    ((rfInitialize .missing { openaiKey := some k }).1.apiProvider = "openai" ∧
     (rfInitialize .missing { openaiKey := some k }).1.apiKey = k ∧
     (rfInitialize .missing { openaiKey := some k }).1.model = "gpt-4o") ∧
    ((rfInitialize .missing { mistralKey := some k }).1.apiProvider = "mistral" ∧
     (rfInitialize .missing { mistralKey := some k }).1.apiKey = k ∧
     (rfInitialize .missing { mistralKey := some k }).1.model = "mistral-large-latest") ∧
    (truthyS env.anthropicKey = true →
      (rooInitialize .missing env).1.apiProvider = "anthropic" ∧
      (rooInitialize .missing env).1.apiKey = env.anthropicKey.getD "") ∧
    (truthyS env.groqKey = true → 2 ≤ rfCount env →
      (rfInitialize .missing env).1.apiProvider = "groq" ∧
      (rfInitialize .missing env).1.apiKey = env.groqKey.getD "") := by
  have hk0 : k ≠ "" := by
    intro hke
    rw [hke] at hk
    exact hk rfl
  have ht : truthyS (some k) = true := by
    simp [truthyS]
    exact hk0
  have hp : presentTrim (some k) = true := by
    simp [presentTrim]
    exact hk
  have hn : presentTrim (none : Option String) = false := by decide
  refine ⟨?_, ?_, ?_, ?_, ?_, ?_, ?_, ?_, ?_, ?_, ?_⟩
  · simp [rooInitialize, rooFirstRun, rooDefaultConfig, ht, hk0]
  · simp [rooInitialize, rooFirstRun, rooDefaultConfig, ht, truthyS, hk0]
  · simp [rooInitialize, rooFirstRun, rooDefaultConfig, ht, truthyS, hk0]
  · simp [rooInitialize, rooFirstRun, rooDefaultConfig, ht, truthyS, hk0]
  · simp [rooInitialize, rooFirstRun, rooDefaultConfig, ht, truthyS, hk0]
  · have hava : rfAvailable { groqKey := some k } = ["groq"] := by
      simp [rfAvailable, rfKeyOf, hp, hn]
    have hcnt : rfCount { groqKey := some k } = 1 := by simp [rfCount, hava]
    simp [rfInitialize, rfFirstRun, rfDefaultModelFor, rfKeyOf, hava, hcnt]
  · have hava : rfAvailable { anthropicKey := some k } = ["anthropic"] := by
      simp [rfAvailable, rfKeyOf, hp, hn]
    have hcnt : rfCount { anthropicKey := some k } = 1 := by simp [rfCount, hava]
    simp [rfInitialize, rfFirstRun, rfDefaultModelFor, rfKeyOf, hava, hcnt]
  · have hava : rfAvailable { openaiKey := some k } = ["openai"] := by
      simp [rfAvailable, rfKeyOf, hp, hn]
    have hcnt : rfCount { openaiKey := some k } = 1 := by simp [rfCount, hava]
    simp [rfInitialize, rfFirstRun, rfDefaultModelFor, rfKeyOf, hava, hcnt]
  · have hava : rfAvailable { mistralKey := some k } = ["mistral"] := by
      simp [rfAvailable, rfKeyOf, hp, hn]
    have hcnt : rfCount { mistralKey := some k } = 1 := by simp [rfCount, hava]
    simp [rfInitialize, rfFirstRun, rfDefaultModelFor, rfKeyOf, hava, hcnt]
  · intro ha
    simp [rooInitialize, rooFirstRun, ha]
  · intro hg h2
    have hn0 : rfCount env ≠ 0 := by omega
    have hn1 : rfCount env ≠ 1 := by omega
    simp [rfInitialize, rfFirstRun, hg, hn0, hn1]

/-- Witness for C5 at the key "K": only OPENAI_API_KEY set selects openai in
`roo-cli.ts`; only MISTRAL_API_KEY set selects mistral in `run-full-cli.js`. -/
theorem c5_first_run_env_scan_witness :
    (rooInitialize .missing { openaiKey := some "K" }).1.apiProvider = "openai" ∧
    (rfInitialize .missing { mistralKey := some "K" }).1.apiProvider = "mistral" :=
  ⟨(c5_first_run_env_scan ("K") {} (by decide)).2.1.1,
   (c5_first_run_env_scan ("K") {} (by decide)).2.2.2.2.2.2.2.2.1.1⟩

/-- Claim C8: a persisted config file that exists but holds malformed JSON never
terminates the resolver — both CLIs catch the parse error, print the warning
lines, yield the default configuration, and leave the file as it is. -/
theorem c8_malformed_config_falls_back (env : Env) :
    rooInitialize .malformed env =
      (rooDefaultConfig env, .malformed,
       ["Error reading config file:", "Using default configuration"]) ∧
    rfInitialize .malformed env =
      (rfDefaultConfig env, .malformed,
       ["Error reading config file:", "Using default configuration"]) :=
  ⟨rfl, rfl⟩

/-- Loading any parsed `roo-cli.ts` config file leaves the merged maxTokens value
untouched (neither the migration nor the env override writes it). -/
theorem rooInitialize_parsed_maxTokens (p : RooFileCfg) (env : Env) :
    (rooInitialize (.parsed p) env).1.maxTokens =
      (mergeRoo (rooDefaultConfig env) p).maxTokens := by
  have h1 : (rooInitialize (.parsed p) env).1 =
      rooEnvOverride env (rooMigrate env (mergeRoo (rooDefaultConfig env) p)).1 := by
    simp [rooInitialize]
  rw [h1, rooEnvOverride_spec]
  split <;> simp [(rooMigrate_frame env _).2.2.2.1]

/-- Claim C9: `/config maxTokens=2048` sets the maxTokens field to the number
2048 and nothing else, persists exactly that config, prints the update
confirmation, and a fresh load of the persisted file yields maxTokens 2048 —
in both CLIs. -/
theorem c9_maxtokens_update (c : RooConfig) (cf : FullConfig) (a : String) (env : Env) :
    (rooHandleConfig c ("maxTokens=2048") a).cfg = { c with maxTokens := some 2048 } ∧
    (rooHandleConfig c ("maxTokens=2048") a).saved =
      some { c with maxTokens := some 2048 } ∧
    (rooHandleConfig c ("maxTokens=2048") a).out =
      ["Configuration updated: maxTokens = 2048"] ∧
    (rooInitialize (.parsed (toRooFile { c with maxTokens := some 2048 })) env).1.maxTokens =
      some 2048 ∧
    (rfHandleConfig cf ("maxTokens=2048") a).cfg = { cf with maxTokens := some 2048 } ∧
    (rfHandleConfig cf ("maxTokens=2048") a).saved =
      some { cf with maxTokens := some 2048 } ∧
    (rfInitialize (.parsed (toFullFile { cf with maxTokens := some 2048 })) env).1.maxTokens =
      some 2048 := by
  refine ⟨rfl, rfl, rfl, ?_, rfl, rfl, ?_⟩
  · rw [rooInitialize_parsed_maxTokens, mergeRoo_toRooFile]
  · rw [(rfInitialize_parsed_frame (toFullFile { cf with maxTokens := some 2048 }) env).2.1,
      mergeFull_toFullFile]

/-- Claim C10: the configuration display never reveals the stored API key — two
configurations that differ only in their (nonempty) keys display identically in
both CLIs; the key renders as "****" when set and "(not set)" when empty; and a
`/config apiKey=...` update confirmation masks the value (the printed line does
not contain the secret as a substring). -/
theorem c10_apikey_never_displayed (c₁ c₂ : RooConfig) (d₁ d₂ : FullConfig)
    (h₁ : c₁.apiKey ≠ "") (h₂ : c₂.apiKey ≠ "")
    (hc : { c₁ with apiKey := "" } = { c₂ with apiKey := "" })
    (g₁ : d₁.apiKey ≠ "") (g₂ : d₂.apiKey ≠ "")
    (hd : { d₁ with apiKey := "" } = { d₂ with apiKey := "" }) :
    rooDisplayLines c₁ = rooDisplayLines c₂ ∧
    rfDisplayLines d₁ = rfDisplayLines d₂ ∧
    ("apiKey = ****") ∈ rooDisplayLines c₁ ∧
    (∀ c : RooConfig, c.apiKey = "" → ("apiKey = (not set)") ∈ rooDisplayLines c) ∧
    (∀ (c : RooConfig) (a : String),
      (rooHandleConfig c ("apiKey=hunter2") a).out =
        ["Configuration updated: apiKey = ****"]) ∧
    (∀ (c : FullConfig) (a : String),
      (rfHandleConfig c ("apiKey=hunter2") a).out =
        ["Configuration updated: apiKey = ****"]) ∧
    findSubIdx (("hunter2").toList)
      (("Configuration updated: apiKey = ****").toList) = none := by
  refine ⟨?_, ?_, ?_, ?_, fun c a => rfl, fun c a => rfl, by decide⟩
  · rcases c₁ with ⟨a1, k1, m1, t1, x1, o1, w1, v1, b1⟩
    rcases c₂ with ⟨a2, k2, m2, t2, x2, o2, w2, v2, b2⟩
    simp only [RooConfig.mk.injEq] at hc
    obtain ⟨e1, -, e3, e4, e5, e6, e7, e8, e9⟩ := hc
    subst e1 e3 e4 e5 e6 e7 e8 e9
    simp_all [rooDisplayLines]
  · rcases d₁ with ⟨a1, k1, m1, t1, x1, w1, v1, o1, s1, b1⟩
    rcases d₂ with ⟨a2, k2, m2, t2, x2, w2, v2, o2, s2, b2⟩
    simp only [FullConfig.mk.injEq] at hd
    obtain ⟨e1, -, e3, e4, e5, e6, e7, e8, e9, e10⟩ := hd
    subst e1 e3 e4 e5 e6 e7 e8 e9 e10
    simp_all [rfDisplayLines]
  · simp [rooDisplayLines, h₁]
  · intro c hck
    simp [rooDisplayLines, hck]

/-- Witness for C10 at two configs differing only in their nonempty keys. -/
theorem c10_apikey_never_displayed_witness :
    rooDisplayLines { rooDefaultConfig {} with apiKey := "alpha" } =
      rooDisplayLines { rooDefaultConfig {} with apiKey := "beta" } :=
  (c10_apikey_never_displayed
    { rooDefaultConfig {} with apiKey := "alpha" }
    { rooDefaultConfig {} with apiKey := "beta" }
    { rfDefaultConfig {} with apiKey := "alpha" }
    { rfDefaultConfig {} with apiKey := "beta" }
    (by decide) (by decide) rfl (by decide) (by decide) rfl).1
